import Mathlib

/-! Shallow embedding of the dynamic attribute catalog and query engine of a
multi-tenant product catalog service (FastAPI + SQLAlchemy).  The Python
functions of `app/api/v1/endpoints/product.py` and `app/utils/ai_csv_utils.py`
are translated into pure Lean functions over an explicit database state:
SQLAlchemy queries become list filters, session mutation becomes explicit
state passing, `db.rollback()` returns the pre-call state, and HTTP errors
become explicit result constructors.  SQL `ILIKE "%v%"` is modelled as
case-insensitive substring containment, and `Float` columns as rationals
(only comparisons are performed on them). -/

namespace PIM

/-- Prefix test on character lists: `charsStartWith needle hay` holds when
`hay` begins with `needle`. -/
def charsStartWith : List Char → List Char → Bool
  | [], _ => true
  | _ :: _, [] => false
  | a :: as, b :: bs => a == b && charsStartWith as bs

/-- Substring test on character lists: `needle` occurs contiguously in the
second argument. -/
def charsContain (needle : List Char) : List Char → Bool
  | [] => needle.isEmpty
  | b :: bs => charsStartWith needle (b :: bs) || charsContain needle bs

/-- Python `str.lower()` / SQL case folding, per character. -/
def lowStr (s : String) : String := String.mk (s.toList.map Char.toLower)

/-- Python `str.replace(a, b)` for the single-character replacements the
source performs. -/
def replaceChar (a b : Char) (s : String) : String :=
  String.mk (s.toList.map (fun c => if c == a then b else c))

/-- Meaning of the SQL pattern match `col ILIKE "%val%"` used throughout the
query builder: case-insensitive substring containment. -/
def ilikeSub (val s : String) : Bool :=
  charsContain (lowStr val).toList (lowStr s).toList

/-- ILIKE against a nullable column: SQL comparisons with NULL never match. -/
def ilikeCol (val : String) : Option String → Bool
  | none => false
  | some s => ilikeSub val s

/-- Python truthiness of an optional string (`if product.manufacturer:`):
false for NULL and for the empty string. -/
def pyTruthyStr : Option String → Bool
  | none => false
  | some s => !(s == "")

/-- Python truthiness of an optional integer (`if product.category_id:`):
false for NULL and for zero. -/
def pyTruthyNat : Option Nat → Bool
  | none => false
  | some n => !(n == 0)

/-- Fixed columns of the `products` table (`app/models/product.py`).
Nullable columns are `Option`; timestamps are irrelevant to the claims and
omitted. -/
structure Product where
  id : Nat
  tenant_id : Nat
  category_id : Option Nat
  sku_id : String
  price : Option Rat
  manufacturer : Option String
  supplier : Option String
  image_url : Option String
deriving DecidableEq

/-- One row of `product_additional_data` (`app/models/product.py`): the
entity-attribute-value store.  Row identity is positional in the list, so the
auto id column is omitted. -/
structure ProductAdditionalData where
  product_id : Nat
  field_name : String
  field_label : String
  field_value : Option String
  field_type : String
deriving DecidableEq

/-- One row of `field_mappings` (`app/models/product.py`): a recorded
header-to-attribute normalization decision.  `is_standard_field` is stored as
the integer 0 or 1 in the schema and modelled as that integer. -/
structure FieldMapping where
  tenant_id : Nat
  original_field_name : String
  normalized_field_name : String
  field_label : String
  field_type : String
  is_standard_field : Nat
deriving DecidableEq

/-- One row of `field_configurations` (`app/models/product.py`). -/
structure FieldConfiguration where
  tenant_id : Nat
  field_name : String
  field_label : String
  field_type : String
  is_searchable : Bool
  is_editable : Bool
  is_primary : Bool
  is_secondary : Bool
  display_order : Int
  description : String
deriving DecidableEq

/-- The database state the endpoints read and write: the four tables the
claims are about, each as a list of rows. -/
structure DB where
  products : List Product
  additional_data : List ProductAdditionalData
  field_mappings : List FieldMapping
  field_configurations : List FieldConfiguration
deriving DecidableEq

/-- Fixed-column names contributed by one product row, mirroring the chain of
truthiness tests of `get_actual_fields_for_tenant` (`product.py` lines 35-48):
`if product.sku_id:` and the three string columns use truthiness (NULL and ""
both fail), `if product.price is not None:` keeps a zero price, and
`if product.category_id:` drops both NULL and a zero id. -/
def productActualFields (p : Product) : List String :=
  (if p.sku_id ≠ "" then ["sku_id"] else []) ++
  (if p.price.isSome then ["price"] else []) ++
  (if pyTruthyStr p.manufacturer then ["manufacturer"] else []) ++
  (if pyTruthyStr p.supplier then ["supplier"] else []) ++
  (if pyTruthyStr p.image_url then ["image_url"] else []) ++
  (if pyTruthyNat p.category_id then ["category_id"] else [])

/-- Model of `get_actual_fields_for_tenant` (`product.py` lines 19-59): the
set of field names observed in the tenant data, returned as a deduplicated
list.  The additional-data pass runs only when the tenant has products and
adds every distinct `field_name` of rows belonging to those products,
regardless of whether the row's `field_value` is NULL. -/
def get_actual_fields_for_tenant (db : DB) (tenant_id : Nat) : List String :=
  let products := db.products.filter (fun p => p.tenant_id == tenant_id)
  let fixed := products.flatMap productActualFields
  let additional :=
    if products.isEmpty then []
    else (db.additional_data.filter
        (fun r => (products.map Product.id).contains r.product_id)).map
        ProductAdditionalData.field_name
  (fixed ++ additional).dedup

/-- Stated from the claim's words, for comparison with the code: column `f`
of product `p` holds a non-null value (`sku_id` is NOT NULL in the schema,
so any product row gives it a value). -/
def claimFixedNonNull (p : Product) (f : String) : Bool :=
  if f == "sku_id" then true
  else if f == "price" then p.price.isSome
  else if f == "manufacturer" then p.manufacturer.isSome
  else if f == "supplier" then p.supplier.isSome
  else if f == "image_url" then p.image_url.isSome
  else if f == "category_id" then p.category_id.isSome
  else false

/-- Stated from the claim's words: field `f` currently has at least one
non-null value in the tenant's fixed columns or additional-data rows. -/
def hasNonNullValue (db : DB) (tenant_id : Nat) (f : String) : Bool :=
  (db.products.any fun p => p.tenant_id == tenant_id && claimFixedNonNull p f) ||
  (db.additional_data.any fun r =>
    (db.products.any fun p => p.tenant_id == tenant_id && p.id == r.product_id) &&
    r.field_name == f && r.field_value.isSome)

/-- Truthiness-based membership condition actually implemented for the fixed
columns, written out field by field. -/
def fixedFieldObserved (p : Product) (f : String) : Prop :=
  (f = "sku_id" ∧ p.sku_id ≠ "") ∨
  (f = "price" ∧ p.price.isSome) ∨
  (f = "manufacturer" ∧ pyTruthyStr p.manufacturer) ∨
  (f = "supplier" ∧ pyTruthyStr p.supplier) ∨
  (f = "image_url" ∧ pyTruthyStr p.image_url) ∨
  (f = "category_id" ∧ pyTruthyNat p.category_id)

theorem mem_if_singleton {α : Type} {c : Prop} [Decidable c] {a f : α} :
    (f ∈ (if c then [a] else [])) ↔ c ∧ f = a := by
  split <;> simp_all

theorem mem_productActualFields (p : Product) (f : String) :
    f ∈ productActualFields p ↔ fixedFieldObserved p f := by
  simp only [productActualFields, fixedFieldObserved, List.mem_append,
    mem_if_singleton]
  tauto

/-- C2, amended.  A field name is in the set returned by
`get_actual_fields_for_tenant` iff some product of the tenant observes it as
a truthy fixed column (`price` needs only to be non-null, but the string
columns must also be non-empty and `category_id` non-zero), or some
additional-data row attached to a tenant product carries it as its
`field_name` — whether or not that row's value is NULL. -/
theorem mem_get_actual_fields (db : DB) (tenant_id : Nat) (f : String) :
    f ∈ get_actual_fields_for_tenant db tenant_id ↔
      ((∃ p ∈ db.products, p.tenant_id = tenant_id ∧ fixedFieldObserved p f) ∨
       (∃ r ∈ db.additional_data, r.field_name = f ∧
         ∃ p ∈ db.products, p.tenant_id = tenant_id ∧ r.product_id = p.id)) := by
  classical
  simp only [get_actual_fields_for_tenant, List.mem_dedup, List.mem_append]
  constructor
  · rintro (h | h)
    · left
      rcases List.mem_flatMap.mp h with ⟨p, hp, hf⟩
      rcases List.mem_filter.mp hp with ⟨hpm, hpt⟩
      exact ⟨p, hpm, by simpa using hpt, (mem_productActualFields p f).mp hf⟩
    · right
      by_cases hE :
          (db.products.filter (fun p => p.tenant_id == tenant_id)).isEmpty
      · simp [hE] at h
      · simp only [hE, if_false] at h
        rcases List.mem_map.mp h with ⟨r, hr, hrf⟩
        rcases List.mem_filter.mp hr with ⟨hrm, hrc⟩
        rcases List.contains_iff_exists_mem_beq.mp hrc with ⟨i, hi, hib⟩
        rcases List.mem_map.mp hi with ⟨p, hp, hpid⟩
        rcases List.mem_filter.mp hp with ⟨hpm, hpt⟩
        have hib' : r.product_id = i := by simpa using hib
        exact ⟨r, hrm, hrf, p, hpm, by simpa using hpt, by rw [hib', hpid]⟩
  · rintro (⟨p, hp, hpt, hf⟩ | ⟨r, hr, hrf, p, hp, hpt, hpid⟩)
    · left
      exact List.mem_flatMap.mpr
        ⟨p, List.mem_filter.mpr ⟨hp, by simpa using hpt⟩,
          (mem_productActualFields p f).mpr hf⟩
    · right
      have hpmem : p ∈ db.products.filter (fun q => q.tenant_id == tenant_id) :=
        List.mem_filter.mpr ⟨hp, by simpa using hpt⟩
      have hne : ¬ (db.products.filter
          (fun q => q.tenant_id == tenant_id)).isEmpty = true := by
        intro hE
        rw [List.isEmpty_iff] at hE
        simp [hE] at hpmem
      simp only [hne, if_false]
      refine List.mem_map.mpr ⟨r, List.mem_filter.mpr ⟨hr, ?_⟩, hrf⟩
      exact List.contains_iff_exists_mem_beq.mpr
        ⟨p.id, List.mem_map.mpr ⟨p, hpmem, rfl⟩, by simp [hpid]⟩

/-- Lexicographic code-point comparison on character lists: the meaning of
Python string `<` and of SQL text ordering as used for `field_name`. -/
def charsLt : List Char → List Char → Bool
  | [], [] => false
  | [], _ :: _ => true
  | _ :: _, [] => false
  | a :: as, b :: bs => a < b || (a == b && charsLt as bs)

/-- Python string `<` (code-point lexicographic). -/
def pyStrLt (a b : String) : Bool := charsLt a.toList b.toList

/-- Insert into a sorted list, keeping earlier-inserted equal keys stable. -/
def insertSorted {α : Type} (le : α → α → Bool) (a : α) : List α → List α
  | [] => [a]
  | b :: bs => if le a b then a :: b :: bs else b :: insertSorted le a bs

/-- Sort used to model SQL `ORDER BY` (an insertion sort; only the multiset
of rows matters to the claims). -/
def sortRows {α : Type} (le : α → α → Bool) (l : List α) : List α :=
  l.foldr (insertSorted le) []

theorem insertSorted_perm {α : Type} (le : α → α → Bool) (a : α)
    (l : List α) : List.Perm (insertSorted le a l) (a :: l) := by
  induction l with
  | nil => simp [insertSorted]
  | cons b bs ih =>
      by_cases h : le a b = true
      · simp [insertSorted, h]
      · simp only [insertSorted, h, if_false]
        exact ((ih.cons b).trans (List.Perm.swap a b bs))

theorem sortRows_perm {α : Type} (le : α → α → Bool) (l : List α) :
    List.Perm (sortRows le l) l := by
  induction l with
  | nil => simp [sortRows]
  | cons a as ih =>
      exact (insertSorted_perm le a (sortRows le as)).trans (ih.cons a)

/-- Title-casing pass of Python `str.title()`: a letter after a non-letter is
uppercased, a letter after a letter lowercased, other characters kept. -/
def pyTitleAux : Bool → List Char → List Char
  | _, [] => []
  | prevAlpha, c :: cs =>
    (if c.isAlpha then (if prevAlpha then c.toLower else c.toUpper) else c) ::
      pyTitleAux c.isAlpha cs

/-- Python `str.title()`. -/
def pyTitle (s : String) : String := String.mk (pyTitleAux false s.toList)

/-- The fixed-column names, as listed in the default-synthesis branch of
`get_field_configurations` (`product.py` line 1557). -/
def standardFieldList : List String :=
  ["sku_id", "price", "manufacturer", "supplier", "image_url", "category_id"]

/-- Order of the SQL `ORDER BY display_order, field_name` clause
(`product.py` line 1534). -/
def configOrderLe (a b : FieldConfiguration) : Bool :=
  a.display_order < b.display_order ||
  (a.display_order == b.display_order && !(pyStrLt b.field_name a.field_name))

/-- Default configuration synthesized by `get_field_configurations`
(`product.py` lines 1539-1573) for an actual field `f` that has no stored
configuration yet: label, type and standard flag come from the first stored
`FieldMapping` for `f` when one exists, otherwise type is "string", the label
is the title-cased field name and the standard flag is fixed-column
membership.  `cfgs` is the configuration list built so far, which determines
`display_order`. -/
def defaultConfigFor (db : DB) (tenant_id : Nat)
    (cfgs : List FieldConfiguration) (f : String) : FieldConfiguration :=
  let field_mapping := (db.field_mappings.filter
    (fun m => m.tenant_id == tenant_id && m.normalized_field_name == f)).head?
  let field_type := match field_mapping with
    | some m => m.field_type
    | none => "string"
  let field_label := match field_mapping with
    | some m => m.field_label
    | none => pyTitle (replaceChar '_' ' ' f)
  let is_standard_field := match field_mapping with
    | some m => !(m.is_standard_field == 0)
    | none => standardFieldList.contains f
  { tenant_id := tenant_id
    field_name := f
    field_label := field_label
    field_type := field_type
    is_searchable := false
    is_editable := true
    is_primary := is_standard_field && f == "sku_id"
    is_secondary := is_standard_field &&
      ["price", "manufacturer", "supplier"].contains f
    display_order := (cfgs.length : Int) +
      (cfgs.filter (fun c => pyStrLt c.field_name f)).length
    description := "Field: " ++ field_label }

/-- Result of the get-configurations endpoint: the returned configuration
list, the database state that survives the request (the session is closed,
and only committed work persists), and whether `db.commit()` ran. -/
structure GetConfigResult where
  configurations : List FieldConfiguration
  db : DB
  committed : Bool
deriving DecidableEq

/-- One iteration of the default-synthesis loop of
`get_field_configurations` (`product.py` lines 1540-1573): the state is the
pair (configuration list built so far, defaults newly added to the session).
`configured_fields` is the set frozen before the loop. -/
def synthStep (db : DB) (tenant_id : Nat) (configured_fields : List String)
    (st : List FieldConfiguration × List FieldConfiguration) (f : String) :
    List FieldConfiguration × List FieldConfiguration :=
  if f ∈ configured_fields then st
  else
    let d := defaultConfigFor db tenant_id st.1 f
    (st.1 ++ [d], st.2 ++ [d])

/-- Model of `get_field_configurations` (`product.py` lines 1517-1602).
Stored configurations for the tenant are restricted to actual fields and
sorted; defaults are synthesized for unconfigured actual fields and added to
the session; `db.commit()` runs only under the source's literal guard
`if actual_fields and not field_configs:`, evaluated after the loop. -/
def get_field_configurations (db : DB) (tenant_id : Nat) : GetConfigResult :=
  let actual_fields := get_actual_fields_for_tenant db tenant_id
  let field_configs0 := sortRows configOrderLe
    (db.field_configurations.filter
      (fun c => c.tenant_id == tenant_id && actual_fields.contains c.field_name))
  let configured_fields := field_configs0.map FieldConfiguration.field_name
  let final := actual_fields.foldl (synthStep db tenant_id configured_fields)
    (field_configs0, ([] : List FieldConfiguration))
  if !actual_fields.isEmpty && final.1.isEmpty then
    { configurations := final.1
      db := { db with field_configurations := db.field_configurations ++ final.2 }
      committed := true }
  else
    { configurations := final.1, db := db, committed := false }

/-- Database state with one product whose `manufacturer` is the empty string:
a non-null value the claim counts but the truthiness test drops. -/
def dbC2 : DB :=
  { products := [
      { id := 1
        tenant_id := 1
        category_id := none
        sku_id := "A1"
        price := none
        manufacturer := some ""
        supplier := none
        image_url := none }]
    additional_data := []
    field_mappings := []
    field_configurations := [] }

/-- C2, counterexample.  In `dbC2` the manufacturer column holds the non-null
value "", so the claim puts "manufacturer" in the actual-fields set, but
`get_actual_fields_for_tenant` omits it (Python truthiness of the empty
string). -/
theorem actual_fields_nonnull_counterexample :
    hasNonNullValue dbC2 1 "manufacturer" = true ∧
    "manufacturer" ∉ get_actual_fields_for_tenant dbC2 1 := by decide

/-- The label a synthesized default configuration receives: the stored
mapping's label when one exists, else the title-cased field name
(`product.py` lines 1549-1557). -/
def defaultLabelFor (db : DB) (tenant_id : Nat) (f : String) : String :=
  match (db.field_mappings.filter
      (fun m => m.tenant_id == tenant_id && m.normalized_field_name == f)).head? with
  | some m => m.field_label
  | none => pyTitle (replaceChar '_' ' ' f)

/-- The declared type a synthesized default configuration receives: the
stored mapping's type when one exists, else "string". -/
def defaultTypeFor (db : DB) (tenant_id : Nat) (f : String) : String :=
  match (db.field_mappings.filter
      (fun m => m.tenant_id == tenant_id && m.normalized_field_name == f)).head? with
  | some m => m.field_type
  | none => "string"

theorem defaultConfigFor_field_name (db : DB) (t : Nat)
    (cfgs : List FieldConfiguration) (f : String) :
    (defaultConfigFor db t cfgs f).field_name = f := rfl

theorem defaultConfigFor_props (db : DB) (t : Nat)
    (cfgs : List FieldConfiguration) (f : String) :
    (defaultConfigFor db t cfgs f).is_searchable = false ∧
    (defaultConfigFor db t cfgs f).is_editable = true ∧
    (defaultConfigFor db t cfgs f).field_type = defaultTypeFor db t f ∧
    (defaultConfigFor db t cfgs f).field_label = defaultLabelFor db t f := by
  exact ⟨rfl, rfl, rfl, rfl⟩

theorem synth_fold_mem_mono (db : DB) (t : Nat) (conf : List String)
    (fs : List String) (st : List FieldConfiguration × List FieldConfiguration)
    {c : FieldConfiguration} (hc : c ∈ st.1) :
    c ∈ (fs.foldl (synthStep db t conf) st).1 := by
  induction fs generalizing st with
  | nil => exact hc
  | cons g rest ih =>
      simp only [List.foldl_cons]
      apply ih
      simp only [synthStep]
      split
      · exact hc
      · exact List.mem_append_left _ hc

theorem synth_fold_length_mono (db : DB) (t : Nat) (conf : List String)
    (fs : List String)
    (st : List FieldConfiguration × List FieldConfiguration) :
    st.1.length ≤ (fs.foldl (synthStep db t conf) st).1.length := by
  induction fs generalizing st with
  | nil => exact Nat.le_refl _
  | cons g rest ih =>
      simp only [List.foldl_cons]
      refine Nat.le_trans ?_ (ih (synthStep db t conf st g))
      simp only [synthStep]
      split
      · exact Nat.le_refl _
      · simp

/-- Number of configurations named `f` in a list. -/
def nameCount (f : String) (l : List FieldConfiguration) : Nat :=
  l.countP (fun c => c.field_name == f)

theorem nameCount_eq_zero {f : String} {l : List FieldConfiguration}
    (h : f ∉ l.map FieldConfiguration.field_name) : nameCount f l = 0 := by
  rw [nameCount, List.countP_eq_zero]
  intro c hc
  simp only [beq_iff_eq]
  intro he
  exact h (List.mem_map.mpr ⟨c, hc, he⟩)

theorem nameCount_eq_one {f : String} {l : List FieldConfiguration}
    (hnd : (l.map FieldConfiguration.field_name).Nodup)
    (hmem : f ∈ l.map FieldConfiguration.field_name) : nameCount f l = 1 := by
  induction l with
  | nil => simp at hmem
  | cons c rest ih =>
      rw [List.map_cons, List.nodup_cons] at hnd
      rw [List.map_cons, List.mem_cons] at hmem
      rcases hmem with hm | hm
      · have hrest : f ∉ rest.map FieldConfiguration.field_name := hm ▸ hnd.1
        have h0 : nameCount f rest = 0 := nameCount_eq_zero hrest
        have hcf : (c.field_name == f) = true := by simp [hm]
        simp only [nameCount, List.countP_cons] at h0 ⊢
        simp [hcf, h0]
      · have hcf : (c.field_name == f) = false := by
          simp only [beq_eq_false_iff_ne, ne_eq]
          intro he
          exact hnd.1 (he ▸ hm)
        have hr := ih hnd.2 hm
        simp only [nameCount, List.countP_cons] at hr ⊢
        simp [hcf, hr]

theorem synth_fold_count (db : DB) (t : Nat) (conf : List String)
    (fs : List String) (f : String) (hfs : fs.Nodup) :
    ∀ st : List FieldConfiguration × List FieldConfiguration,
    nameCount f (fs.foldl (synthStep db t conf) st).1 =
      nameCount f st.1 + (if f ∈ fs ∧ f ∉ conf then 1 else 0) := by
  induction fs with
  | nil => intro st; simp
  | cons g rest ih =>
      intro st
      have hgrest : g ∉ rest := (List.nodup_cons.mp hfs).1
      have hrestnd : rest.Nodup := (List.nodup_cons.mp hfs).2
      simp only [List.foldl_cons]
      by_cases hg : g ∈ conf
      · have hstep : synthStep db t conf st g = st := by
          simp [synthStep, hg]
        rw [hstep, ih hrestnd st]
        congr 1
        by_cases hf : f ∈ (g :: rest) ∧ f ∉ conf
        · rcases hf with ⟨hf1, hf2⟩
          rw [List.mem_cons] at hf1
          rcases hf1 with hf1 | hf1
          · exact absurd (hf1 ▸ hg) hf2
          · simp [hf1, hf2]
        · have : ¬ (f ∈ rest ∧ f ∉ conf) := by
            intro ⟨h1, h2⟩; exact hf ⟨List.mem_cons_of_mem _ h1, h2⟩
          simp only [hf, this, if_false]
      · have hstep : synthStep db t conf st g =
            (st.1 ++ [defaultConfigFor db t st.1 g],
             st.2 ++ [defaultConfigFor db t st.1 g]) := by
          simp [synthStep, hg]
        rw [hstep, ih hrestnd _]
        simp only [nameCount, List.countP_append]
        have hgn : g ∉ conf := hg
        by_cases hfg : f = g
        · subst hfg
          have h1 : List.countP (fun c => c.field_name == f)
              [defaultConfigFor db t st.1 f] = 1 := by
            simp [List.countP_cons, defaultConfigFor_field_name]
          rw [h1]
          have h2 : ¬ (f ∈ rest ∧ f ∉ conf) := fun hp => hgrest hp.1
          simp [h2, hgn, hgrest]
        · have h1 : List.countP (fun c => c.field_name == f)
              [defaultConfigFor db t st.1 g] = 0 := by
            simp [List.countP_cons, defaultConfigFor_field_name, Ne.symm hfg]
          rw [h1]
          have h2 : (f ∈ g :: rest ∧ f ∉ conf) ↔ (f ∈ rest ∧ f ∉ conf) := by
            constructor
            · rintro ⟨hmem, hnc⟩
              rw [List.mem_cons] at hmem
              rcases hmem with he | hmem
              · exact absurd he hfg
              · exact ⟨hmem, hnc⟩
            · rintro ⟨hmem, hnc⟩
              exact ⟨List.mem_cons_of_mem _ hmem, hnc⟩
          simp only [h2]
          omega

theorem synth_fold_default_mem (db : DB) (t : Nat) (conf : List String)
    (fs : List String) (f : String) (hfin : f ∈ fs) (hfc : f ∉ conf) :
    ∀ st : List FieldConfiguration × List FieldConfiguration,
    ∃ c ∈ (fs.foldl (synthStep db t conf) st).1,
      c.field_name = f ∧ c.is_searchable = false ∧ c.is_editable = true ∧
      c.field_type = defaultTypeFor db t f ∧
      c.field_label = defaultLabelFor db t f := by
  induction fs with
  | nil => simp at hfin
  | cons g rest ih =>
      intro st
      simp only [List.foldl_cons]
      rw [List.mem_cons] at hfin
      rcases hfin with hfg | hfin
      · subst hfg
        have hstep : synthStep db t conf st f =
            (st.1 ++ [defaultConfigFor db t st.1 f],
             st.2 ++ [defaultConfigFor db t st.1 f]) := by
          simp [synthStep, hfc]
        rw [hstep]
        refine ⟨defaultConfigFor db t st.1 f, ?_, ?_⟩
        · exact synth_fold_mem_mono db t conf rest _
            (List.mem_append_right _ (List.mem_singleton.mpr rfl))
        · rcases defaultConfigFor_props db t st.1 f with ⟨h1, h2, h3, h4⟩
          exact ⟨defaultConfigFor_field_name db t st.1 f, h1, h2, h3, h4⟩
      · exact ih hfin (synthStep db t conf st g)

theorem synth_fold_ne_nil (db : DB) (t : Nat) (conf : List String)
    (fs : List String)
    (st : List FieldConfiguration × List FieldConfiguration)
    (h : st.1 ≠ []) : (fs.foldl (synthStep db t conf) st).1 ≠ [] := by
  intro he
  have hm := synth_fold_length_mono db t conf fs st
  rw [he] at hm
  simp only [List.length_nil, Nat.le_zero] at hm
  exact h (List.eq_nil_of_length_eq_zero hm)

/-- The commit guard of `get_field_configurations`
(`if actual_fields and not field_configs:` at `product.py` line 1575,
evaluated after the synthesis loop has appended a default for every
unconfigured actual field) can never hold: with no actual fields its first
conjunct fails, and otherwise the built list is non-empty. -/
theorem commit_guard_false (db : DB) (t : Nat) (actual : List String)
    (cfg0 : List FieldConfiguration) :
    (!actual.isEmpty &&
      ((actual.foldl (synthStep db t (cfg0.map FieldConfiguration.field_name))
        (cfg0, ([] : List FieldConfiguration))).1.isEmpty)) = false := by
  cases actual with
  | nil => simp
  | cons a rest =>
      have hne : ((a :: rest).foldl
          (synthStep db t (cfg0.map FieldConfiguration.field_name))
          (cfg0, ([] : List FieldConfiguration))).1 ≠ [] := by
        rw [List.foldl_cons]
        apply synth_fold_ne_nil
        by_cases ha : a ∈ cfg0.map FieldConfiguration.field_name
        · have hstep : synthStep db t (cfg0.map FieldConfiguration.field_name)
              (cfg0, ([] : List FieldConfiguration)) a = (cfg0, []) := by
            simp [synthStep, ha]
          rw [hstep]
          show cfg0 ≠ []
          intro h0
          rw [h0] at ha
          simp at ha
        · simp [synthStep, ha]
      cases hE : ((a :: rest).foldl
          (synthStep db t (cfg0.map FieldConfiguration.field_name))
          (cfg0, ([] : List FieldConfiguration))).1.isEmpty with
      | false => simp [hE]
      | true => exact absurd (List.isEmpty_iff.mp hE) hne

/-- The configuration list `get_field_configurations` builds: stored rows for
actual fields, sorted, then synthesized defaults appended in discovery
order. -/
def builtConfigs (db : DB) (tenant_id : Nat) : List FieldConfiguration :=
  let actual_fields := get_actual_fields_for_tenant db tenant_id
  let field_configs0 := sortRows configOrderLe
    (db.field_configurations.filter
      (fun c => c.tenant_id == tenant_id && actual_fields.contains c.field_name))
  (actual_fields.foldl
    (synthStep db tenant_id (field_configs0.map FieldConfiguration.field_name))
    (field_configs0, ([] : List FieldConfiguration))).1

/-- Evaluation of `get_field_configurations`: the commit branch is dead, so
the call always returns the built list, leaves the database untouched and
never commits. -/
theorem get_field_configurations_eq (db : DB) (t : Nat) :
    get_field_configurations db t =
      { configurations := builtConfigs db t, db := db, committed := false } := by
  rw [get_field_configurations, builtConfigs]
  simp only [commit_guard_false, Bool.false_eq_true, if_false]

theorem actual_fields_nodup (db : DB) (t : Nat) :
    (get_actual_fields_for_tenant db t).Nodup := by
  simp only [get_actual_fields_for_tenant]
  exact List.nodup_dedup _

/-- C3, amended.  For every tenant whose stored configurations carry pairwise
distinct field names, the get-configurations operation returns exactly one
configuration entry per actual field, and for an actual field lacking a
stored configuration the returned entry is a synthesized default:
is_searchable false, is_editable true, type and label taken from the stored
field mapping when one exists and otherwise type "string" with the
title-cased label.  The synthesized defaults are only added to the request
session, however: the commit guard of the source can never hold once the
loop has run, so the call never persists anything — the database after the
call is exactly the database before it. -/
theorem get_field_configurations_amended (db : DB) (t : Nat)
    (hnd : ((db.field_configurations.filter
      (fun c => c.tenant_id == t)).map FieldConfiguration.field_name).Nodup) :
    (get_field_configurations db t).db = db ∧
    (get_field_configurations db t).committed = false ∧
    ∀ f ∈ get_actual_fields_for_tenant db t,
      nameCount f (get_field_configurations db t).configurations = 1 ∧
      ((¬ ∃ c ∈ db.field_configurations, c.tenant_id = t ∧ c.field_name = f) →
        ∃ c ∈ (get_field_configurations db t).configurations,
          c.field_name = f ∧ c.is_searchable = false ∧ c.is_editable = true ∧
          c.field_type = defaultTypeFor db t f ∧
          c.field_label = defaultLabelFor db t f) := by
  rw [get_field_configurations_eq]
  refine ⟨rfl, rfl, ?_⟩
  intro f hf
  simp only [builtConfigs]
  set actual := get_actual_fields_for_tenant db t with hactual
  set cfg0 := sortRows configOrderLe
    (db.field_configurations.filter
      (fun c => c.tenant_id == t && actual.contains c.field_name)) with hcfg0
  set conf := cfg0.map FieldConfiguration.field_name with hconf
  have hactnd : actual.Nodup := actual_fields_nodup db t
  have hcontains : actual.contains f = true :=
    List.contains_iff_exists_mem_beq.mpr ⟨f, hf, by simp⟩
  have hperm : List.Perm cfg0
      (db.field_configurations.filter
        (fun c => c.tenant_id == t && actual.contains c.field_name)) :=
    sortRows_perm _ _
  have hmemconf : ∀ g ∈ conf,
      ∃ c ∈ db.field_configurations, c.tenant_id = t ∧ c.field_name = g := by
    intro g hg
    rcases List.mem_map.mp hg with ⟨c, hc, hcg⟩
    have hcf := hperm.mem_iff.mp hc
    rcases List.mem_filter.mp hcf with ⟨hcl, hcp⟩
    rcases Bool.and_eq_true_iff.mp hcp with ⟨hct, _⟩
    exact ⟨c, hcl, by simpa using hct, hcg⟩
  have hcount := synth_fold_count db t conf actual f hactnd
    (cfg0, ([] : List FieldConfiguration))
  constructor
  · rw [hcount]
    by_cases hfc : f ∈ conf
    · have h1 : nameCount f cfg0 = 1 := by
        have hchain : nameCount f cfg0 =
            nameCount f (db.field_configurations.filter
              (fun c => c.tenant_id == t)) := by
          unfold nameCount
          rw [hperm.countP_eq, List.countP_filter, List.countP_filter]
          apply List.countP_congr
          intro c _
          by_cases hcf : (c.field_name == f) = true
          · have hce : c.field_name = f := by simpa using hcf
            simp [hcf, hce, hcontains, hf]
          · simp [Bool.eq_false_iff.mpr hcf]
        rw [hchain]
        apply nameCount_eq_one hnd
        rcases List.mem_map.mp hfc with ⟨c, hc, hcg⟩
        have hcf := hperm.mem_iff.mp hc
        rcases List.mem_filter.mp hcf with ⟨hcl, hcp⟩
        rcases Bool.and_eq_true_iff.mp hcp with ⟨hct, _⟩
        exact List.mem_map.mpr ⟨c, List.mem_filter.mpr ⟨hcl, hct⟩, hcg⟩
      simp [h1, hf, hfc]
    · have h0 : nameCount f cfg0 = 0 := nameCount_eq_zero hfc
      simp [h0, hf, hfc]
  · intro hno
    have hfc : f ∉ conf := by
      intro hfc
      exact hno (hmemconf f hfc)
    exact synth_fold_default_mem db t conf actual f hf hfc
      (cfg0, ([] : List FieldConfiguration))

/-- Database state for the C3 scenarios: one product giving the tenant one
actual field and no stored configuration or mapping. -/
def dbC3 : DB :=
  { products := [
      { id := 1
        tenant_id := 1
        category_id := none
        sku_id := "A1"
        price := none
        manufacturer := none
        supplier := none
        image_url := none }]
    additional_data := []
    field_mappings := []
    field_configurations := [] }

/-- C3, counterexample.  The tenant of `dbC3` has the actual field "sku_id"
with no stored configuration; the call synthesizes and returns a default
entry for it, but the database that survives the call still holds no
configuration row at all — the claimed persistence of the default does not
happen (the source's commit guard is dead code). -/
theorem get_field_configurations_counterexample :
    "sku_id" ∈ get_actual_fields_for_tenant dbC3 1 ∧
    (∃ c ∈ (get_field_configurations dbC3 1).configurations,
      c.field_name = "sku_id") ∧
    (get_field_configurations dbC3 1).db = dbC3 ∧
    (get_field_configurations dbC3 1).db.field_configurations = [] := by
  decide

/-- C3, witness for the amended theorem at the concrete state `dbC3`. -/
theorem get_field_configurations_amended_witness :
    (get_field_configurations dbC3 1).db = dbC3 ∧
    (get_field_configurations dbC3 1).committed = false ∧
    ∀ f ∈ get_actual_fields_for_tenant dbC3 1,
      nameCount f (get_field_configurations dbC3 1).configurations = 1 ∧
      ((¬ ∃ c ∈ dbC3.field_configurations, c.tenant_id = 1 ∧ c.field_name = f) →
        ∃ c ∈ (get_field_configurations dbC3 1).configurations,
          c.field_name = f ∧ c.is_searchable = false ∧ c.is_editable = true ∧
          c.field_type = defaultTypeFor dbC3 1 f ∧
          c.field_label = defaultLabelFor dbC3 1 f) :=
  get_field_configurations_amended dbC3 1 (by decide)

/-- One entry of the batch body of the set-configurations endpoint
(`product.py` lines 1604-1629).  A JSON field that may be absent is an
`Option` (Python `dict.get(k, default)` is `Option.getD`); `field_name` and
`field_label` are read with `.get(...)` and tested for truthiness, so the
empty string models both an absent and an empty value. -/
structure ConfigInput where
  field_name : String
  field_label : String
  field_type : Option String
  is_searchable : Option Bool
  is_editable : Option Bool
  is_primary : Option Bool
  is_secondary : Option Bool
  display_order : Option Int
  description : Option String
deriving DecidableEq

/-- In-place update of an existing configuration row
(`product.py` lines 1661-1671): each column takes the batch value when
present, else keeps its stored value. -/
def applyConfigUpdate (existing : FieldConfiguration) (cd : ConfigInput) :
    FieldConfiguration :=
  { existing with
    field_label :=
      if cd.field_label == "" then existing.field_label else cd.field_label
    field_type := cd.field_type.getD existing.field_type
    is_searchable := cd.is_searchable.getD existing.is_searchable
    is_editable := cd.is_editable.getD existing.is_editable
    is_primary := cd.is_primary.getD existing.is_primary
    is_secondary := cd.is_secondary.getD existing.is_secondary
    display_order := cd.display_order.getD existing.display_order
    description := cd.description.getD existing.description }

/-- Creation of a new configuration row (`product.py` lines 1673-1687). -/
def newConfigFrom (tenant_id : Nat) (cd : ConfigInput) : FieldConfiguration :=
  { tenant_id := tenant_id
    field_name := cd.field_name
    field_label := cd.field_label
    field_type := cd.field_type.getD "string"
    is_searchable := cd.is_searchable.getD false
    is_editable := cd.is_editable.getD true
    is_primary := cd.is_primary.getD false
    is_secondary := cd.is_secondary.getD false
    display_order := cd.display_order.getD 0
    description := cd.description.getD "" }

/-- Update the first row satisfying `p` (the `.first()` the source mutates). -/
def updateFirst {α : Type} (p : α → Bool) (g : α → α) : List α → List α
  | [] => []
  | c :: cs => if p c then g c :: cs else c :: updateFirst p g cs

/-- Session state carried through the batch loop of
`set_field_configurations`: the configuration table as mutated so far, the
error list, and the created/updated tallies. -/
structure SetConfigState where
  configs : List FieldConfiguration
  errors : List String
  created_count : Nat
  updated_count : Nat
deriving DecidableEq

/-- One iteration of the batch loop (`product.py` lines 1638-1690): the
guards run in source order (missing name, missing label, name not an actual
field), then the entry upserts against the session state. -/
def setConfigStep (tenant_id : Nat) (actual_fields : List String)
    (st : SetConfigState) (cd : ConfigInput) : SetConfigState :=
  if cd.field_name == "" then
    { st with errors := st.errors ++ ["Field name is required"] }
  else if cd.field_label == "" then
    { st with errors := st.errors ++
        ["Field label is required for field: " ++ cd.field_name] }
  else if cd.field_name ∉ actual_fields then
    { st with errors := st.errors ++
        ["Field '" ++ cd.field_name ++ "' does not exist in tenant's product data"] }
  else if st.configs.any
      (fun c => c.field_name == cd.field_name && c.tenant_id == tenant_id) then
    { st with
      configs := updateFirst
        (fun c => c.field_name == cd.field_name && c.tenant_id == tenant_id)
        (fun c => applyConfigUpdate c cd) st.configs
      updated_count := st.updated_count + 1 }
  else
    { st with
      configs := st.configs ++ [newConfigFrom tenant_id cd]
      created_count := st.created_count + 1 }

/-- Result of the set-configurations endpoint: the database state after the
request, the reported errors, and the reported counts. -/
structure SetConfigResult where
  db : DB
  errors : List String
  created_count : Nat
  updated_count : Nat
deriving DecidableEq

/-- Model of `set_field_configurations` (`product.py` lines 1604-1730):
actual fields are computed once, the batch is folded through the session,
and any error rolls the whole batch back (`db.rollback()` at line 1693
returns the pre-call state and the response reports zero counts); otherwise
the mutated table is committed. -/
def set_field_configurations (db : DB) (tenant_id : Nat)
    (configurations : List ConfigInput) : SetConfigResult :=
  let actual_fields := get_actual_fields_for_tenant db tenant_id
  let final := configurations.foldl (setConfigStep tenant_id actual_fields)
    { configs := db.field_configurations, errors := [],
      created_count := 0, updated_count := 0 }
  if final.errors.isEmpty then
    { db := { db with field_configurations := final.configs }
      errors := []
      created_count := final.created_count
      updated_count := final.updated_count }
  else
    { db := db, errors := final.errors,
      created_count := 0, updated_count := 0 }

theorem setConfig_fold_errors_mono (t : Nat) (actual : List String)
    (l : List ConfigInput) (st : SetConfigState) {e : String}
    (he : e ∈ st.errors) :
    e ∈ (l.foldl (setConfigStep t actual) st).errors := by
  induction l generalizing st with
  | nil => exact he
  | cons cd rest ih =>
      simp only [List.foldl_cons]
      apply ih
      simp only [setConfigStep]
      repeat' split
      all_goals simp_all

theorem setConfig_fold_reports (t : Nat) (actual : List String)
    (l : List ConfigInput) (cd : ConfigInput) (hmem : cd ∈ l)
    (hname : cd.field_name ≠ "") (hlabel : cd.field_label ≠ "")
    (hbad : cd.field_name ∉ actual) :
    ∀ st : SetConfigState,
    ("Field '" ++ cd.field_name ++ "' does not exist in tenant's product data")
      ∈ (l.foldl (setConfigStep t actual) st).errors := by
  induction l with
  | nil => simp at hmem
  | cons hd rest ih =>
      intro st
      rw [List.mem_cons] at hmem
      simp only [List.foldl_cons]
      rcases hmem with he | hmem
      · subst he
        apply setConfig_fold_errors_mono
        have h1 : ¬ (cd.field_name == "") = true := by simpa using hname
        have h2 : ¬ (cd.field_label == "") = true := by simpa using hlabel
        simp only [setConfigStep, h1, h2, hbad, if_false, if_neg,
          not_false_iff, if_true]
        exact List.mem_append_right _ (List.mem_singleton.mpr rfl)
      · exact ih hmem (setConfigStep t actual st hd)

/-- C4, confirmed.  Any batch entry with a non-empty name and label whose
field name is not among the tenant's actual fields is rejected with an error
naming that field; the presence of the error makes the whole call roll back:
the database is unchanged and both reported counts are zero.  Because the
reporting lemma holds for every such entry of the batch, every rejected
entry is reported, not just the first. -/
theorem set_field_configurations_rejects (db : DB) (tenant_id : Nat)
    (configurations : List ConfigInput) (cd : ConfigInput)
    (hmem : cd ∈ configurations)
    (hname : cd.field_name ≠ "") (hlabel : cd.field_label ≠ "")
    (hbad : cd.field_name ∉ get_actual_fields_for_tenant db tenant_id) :
    ("Field '" ++ cd.field_name ++ "' does not exist in tenant's product data")
      ∈ (set_field_configurations db tenant_id configurations).errors ∧
    (set_field_configurations db tenant_id configurations).db = db ∧
    (set_field_configurations db tenant_id configurations).created_count = 0 ∧
    (set_field_configurations db tenant_id configurations).updated_count = 0 := by
  have hrep := setConfig_fold_reports tenant_id
    (get_actual_fields_for_tenant db tenant_id) configurations cd hmem
    hname hlabel hbad
    { configs := db.field_configurations, errors := [],
      created_count := 0, updated_count := 0 }
  have hne : ¬ (configurations.foldl
      (setConfigStep tenant_id (get_actual_fields_for_tenant db tenant_id))
      { configs := db.field_configurations, errors := [],
        created_count := 0, updated_count := 0 }).errors.isEmpty = true := by
    intro hE
    rw [List.isEmpty_iff] at hE
    rw [hE] at hrep
    simp at hrep
  simp only [set_field_configurations]
  rw [if_neg hne]
  exact ⟨hrep, rfl, rfl, rfl⟩

/-- C4, witness: a one-entry batch naming a field the tenant of `dbC3` does
not have. -/
theorem set_field_configurations_rejects_witness :
    ("Field 'warranty' does not exist in tenant's product data")
      ∈ (set_field_configurations dbC3 1
          [{ field_name := "warranty", field_label := "Warranty",
             field_type := none, is_searchable := none, is_editable := none,
             is_primary := none, is_secondary := none, display_order := none,
             description := none }]).errors ∧
    (set_field_configurations dbC3 1
        [{ field_name := "warranty", field_label := "Warranty",
           field_type := none, is_searchable := none, is_editable := none,
           is_primary := none, is_secondary := none, display_order := none,
           description := none }]).db = dbC3 ∧
    (set_field_configurations dbC3 1
        [{ field_name := "warranty", field_label := "Warranty",
           field_type := none, is_searchable := none, is_editable := none,
           is_primary := none, is_secondary := none, display_order := none,
           description := none }]).created_count = 0 ∧
    (set_field_configurations dbC3 1
        [{ field_name := "warranty", field_label := "Warranty",
           field_type := none, is_searchable := none, is_editable := none,
           is_primary := none, is_secondary := none, display_order := none,
           description := none }]).updated_count = 0 :=
  set_field_configurations_rejects dbC3 1 _ _ (List.mem_singleton.mpr rfl)
    (by decide) (by decide) (by decide)

/-- Maximum product limit for this version (`product.py` line 17). -/
def MAX_PRODUCTS_LIMIT : Nat := 500

/-- One entry of a processed row's `additional_data` list
(`ai_csv_utils.py` lines 225-230): the value is always stringified there. -/
structure AdditionalItem where
  field_name : String
  field_label : String
  field_value : String
  field_type : String
deriving DecidableEq

/-- One processed row as built by `process_file_with_mappings`
(`ai_csv_utils.py` lines 189-201).  The dict always carries every fixed-field
key, so `dict.get(key, default)` in the upload endpoint always returns the
stored value; a `None` value is `Option.none` here. -/
structure ProductData where
  index : Nat
  sku_id : Option String
  category_id : Option Nat
  price : Option Rat
  manufacturer : Option String
  supplier : Option String
  image_url : Option String
  additional_data : List AdditionalItem
  validation_status : String
  validation_errors : List String
deriving DecidableEq

/-- One field-mapping record as produced by the analysis step and consumed
by the upload endpoint (`product.py` lines 163-173). -/
structure MappingInput where
  original_field_name : String
  normalized_field_name : String
  field_label : String
  field_type : String
  is_standard_field : Bool
deriving DecidableEq

/-- Session state of the row-saving loop of `upload_and_save_products`:
the flushed database, the created products, the error list and the id the
next `db.flush()` will assign. -/
structure UploadState where
  db : DB
  created : List Product
  errors : List String
  nextId : Nat
deriving DecidableEq

/-- Largest product id in use; `db.flush()` assigns fresh ids above it. -/
def maxProductId (db : DB) : Nat :=
  db.products.foldl (fun m p => max m p.id) 0

/-- One iteration of the saving loop (`product.py` lines 179-224): a falsy
SKU or an SKU already present for the tenant appends an error and skips the
row; otherwise the product and its additional-data rows are added to the
session (the duplicate check runs against the session state, so it also
catches repeats within one file). -/
def uploadRowStep (tenant_id : Nat) (st : UploadState) (pd : ProductData) :
    UploadState :=
  match pd.sku_id with
  | none =>
      { st with errors := st.errors ++
          ["Product at index " ++ toString pd.index ++ ": SKU ID is required"] }
  | some s =>
      if s == "" then
        { st with errors := st.errors ++
            ["Product at index " ++ toString pd.index ++ ": SKU ID is required"] }
      else if st.db.products.any
          (fun p => p.sku_id == s && p.tenant_id == tenant_id) then
        { st with errors := st.errors ++
            ["Product with SKU " ++ s ++ " already exists"] }
      else
        let product : Product :=
          { id := st.nextId
            tenant_id := tenant_id
            category_id := pd.category_id
            sku_id := s
            price := pd.price
            manufacturer := pd.manufacturer
            supplier := pd.supplier
            image_url := pd.image_url }
        let rows := pd.additional_data.map (fun a =>
          ({ product_id := st.nextId
             field_name := a.field_name
             field_label := a.field_label
             field_value := some a.field_value
             field_type := a.field_type } : ProductAdditionalData))
        { db := { st.db with
            products := st.db.products ++ [product]
            additional_data := st.db.additional_data ++ rows }
          created := st.created ++ [product]
          errors := st.errors
          nextId := st.nextId + 1 }

/-- Result of the single-call upload endpoint: the database state that
survives the request, the reported row errors, the reported counts, and the
limit error when the ceiling aborted the call. -/
structure UploadResult where
  db : DB
  errors : List String
  created_count : Nat
  total_count : Nat
  limit_error : Option String
deriving DecidableEq

/-- The `FieldMapping` row stored for one analysis mapping
(`product.py` lines 163-173). -/
def storedMappingOf (tenant_id : Nat) (m : MappingInput) : FieldMapping :=
  { tenant_id := tenant_id
    original_field_name := m.original_field_name
    normalized_field_name := m.normalized_field_name
    field_label := m.field_label
    field_type := m.field_type
    is_standard_field := if m.is_standard_field then 1 else 0 }

/-- Session state at the start of the saving loop: the analysis mappings
have been added (`product.py` lines 159-173), nothing else has changed. -/
def uploadStartState (db : DB) (tenant_id : Nat)
    (field_mappings : List MappingInput) : UploadState :=
  { db := { db with field_mappings := db.field_mappings ++
      field_mappings.map (storedMappingOf tenant_id) }
    created := []
    errors := []
    nextId := maxProductId db + 1 }

/-- Model of `upload_and_save_products` (`product.py` lines 117-275): the
row-count ceiling is checked before any write; then the field mappings are
stored and the rows saved one by one; any error rolls the entire batch back
(`db.rollback()` at line 227) and the response reports zero created
products. -/
def upload_and_save_products (db : DB) (tenant_id : Nat)
    (field_mappings : List MappingInput)
    (products_data : List ProductData) : UploadResult :=
  if products_data.length > MAX_PRODUCTS_LIMIT then
    { db := db
      errors := []
      created_count := 0
      total_count := products_data.length
      limit_error := some ("Product limit exceeded. Maximum " ++
        toString MAX_PRODUCTS_LIMIT ++ " products allowed. Found " ++
        toString products_data.length ++ " products.") }
  else
    let final := products_data.foldl (uploadRowStep tenant_id)
      (uploadStartState db tenant_id field_mappings)
    if final.errors.isEmpty then
      { db := final.db
        errors := []
        created_count := final.created.length
        total_count := products_data.length
        limit_error := none }
    else
      { db := db
        errors := final.errors
        created_count := 0
        total_count := products_data.length
        limit_error := none }

/-- C5, confirmed.  An upload whose processed row count exceeds 500 aborts
with the count-reporting limit error before any database write: the
surviving database is the pre-call one and no product is created. -/
theorem upload_limit_enforced (db : DB) (tenant_id : Nat)
    (field_mappings : List MappingInput) (products_data : List ProductData)
    (h : products_data.length > 500) :
    (upload_and_save_products db tenant_id field_mappings products_data).db
        = db ∧
    (upload_and_save_products db tenant_id field_mappings
        products_data).created_count = 0 ∧
    (upload_and_save_products db tenant_id field_mappings
        products_data).limit_error =
      some ("Product limit exceeded. Maximum 500 products allowed. Found " ++
        toString products_data.length ++ " products.") := by
  have h500 : products_data.length > MAX_PRODUCTS_LIMIT := h
  simp only [upload_and_save_products]
  rw [if_pos h500]
  exact ⟨rfl, rfl, rfl⟩

/-- A syntactically valid processed row used to build oversized uploads. -/
def dummyRow : ProductData :=
  { index := 0
    sku_id := some "X"
    category_id := none
    price := none
    manufacturer := none
    supplier := none
    image_url := none
    additional_data := []
    validation_status := "valid"
    validation_errors := [] }

/-- C5, witness: 501 valid rows trip the ceiling and nothing is written. -/
theorem upload_limit_enforced_witness :
    (upload_and_save_products dbC3 1 [] (List.replicate 501 dummyRow)).db
        = dbC3 ∧
    (upload_and_save_products dbC3 1 []
        (List.replicate 501 dummyRow)).created_count = 0 ∧
    (upload_and_save_products dbC3 1 []
        (List.replicate 501 dummyRow)).limit_error =
      some ("Product limit exceeded. Maximum 500 products allowed. Found " ++
        toString (List.replicate 501 dummyRow).length ++ " products.") :=
  upload_limit_enforced dbC3 1 [] _ (by rw [List.length_replicate]; decide)

theorem upload_fold_errors_mono (tenant_id : Nat) (l : List ProductData)
    (st : UploadState) {e : String} (he : e ∈ st.errors) :
    e ∈ (l.foldl (uploadRowStep tenant_id) st).errors := by
  induction l generalizing st with
  | nil => exact he
  | cons pd rest ih =>
      simp only [List.foldl_cons]
      apply ih
      simp only [uploadRowStep]
      rcases pd.sku_id with _ | s
      · exact List.mem_append_left _ he
      · simp only []
        repeat' split
        all_goals first
          | exact List.mem_append_left _ he
          | exact he

theorem upload_fold_products_mono (tenant_id : Nat) (l : List ProductData)
    (st : UploadState) {p : Product} (hp : p ∈ st.db.products) :
    p ∈ (l.foldl (uploadRowStep tenant_id) st).db.products := by
  induction l generalizing st with
  | nil => exact hp
  | cons pd rest ih =>
      simp only [List.foldl_cons]
      apply ih
      simp only [uploadRowStep]
      rcases pd.sku_id with _ | s
      · exact hp
      · simp only []
        repeat' split
        all_goals first
          | exact List.mem_append_left _ hp
          | exact hp

theorem upload_fold_reports_duplicate (tenant_id : Nat)
    (l : List ProductData) (r : ProductData) (s : String)
    (hmem : r ∈ l) (hsku : r.sku_id = some s) (hne : s ≠ "") :
    ∀ st : UploadState,
    (∃ p ∈ st.db.products, p.tenant_id = tenant_id ∧ p.sku_id = s) →
    ("Product with SKU " ++ s ++ " already exists")
      ∈ (l.foldl (uploadRowStep tenant_id) st).errors := by
  induction l with
  | nil => simp at hmem
  | cons hd rest ih =>
      intro st hex
      rw [List.mem_cons] at hmem
      simp only [List.foldl_cons]
      rcases hmem with he | hmem
      · subst he
        apply upload_fold_errors_mono
        rcases hex with ⟨p, hp, hpt, hps⟩
        have hdup : st.db.products.any
            (fun q => q.sku_id == s && q.tenant_id == tenant_id) = true := by
          rw [List.any_eq_true]
          exact ⟨p, hp, by simp [hps, hpt]⟩
        have hsne : ¬ (s == "") = true := by simpa using hne
        simp only [uploadRowStep, hsku, hsne, hdup, if_false, if_true,
          if_neg, not_false_iff]
        exact List.mem_append_right _ (List.mem_singleton.mpr rfl)
      · rcases hex with ⟨p, hp, hpt, hps⟩
        refine ih hmem (uploadRowStep tenant_id st hd) ⟨p, ?_, hpt, hps⟩
        have : p ∈ st.db.products := hp
        simp only [uploadRowStep]
        rcases hd.sku_id with _ | s0
        · exact this
        · simp only []
          repeat' split
          all_goals first
            | exact List.mem_append_left _ this
            | exact this

/-- C6, confirmed.  If any uploaded row carries a truthy SKU that already
exists for the tenant, the single-call upload reports that SKU as already
existing, rolls the entire batch back (the surviving database is the
pre-call one, so the existing product is not overwritten) and reports zero
created products. -/
theorem upload_duplicate_rolls_back (db : DB) (tenant_id : Nat)
    (field_mappings : List MappingInput) (products_data : List ProductData)
    (r : ProductData) (s : String)
    (hlen : ¬ products_data.length > 500)
    (hmem : r ∈ products_data) (hsku : r.sku_id = some s) (hne : s ≠ "")
    (hex : ∃ p ∈ db.products, p.tenant_id = tenant_id ∧ p.sku_id = s) :
    ("Product with SKU " ++ s ++ " already exists")
      ∈ (upload_and_save_products db tenant_id field_mappings
          products_data).errors ∧
    (upload_and_save_products db tenant_id field_mappings products_data).db
        = db ∧
    (upload_and_save_products db tenant_id field_mappings
        products_data).created_count = 0 := by
  have hlim : ¬ products_data.length > MAX_PRODUCTS_LIMIT := hlen
  rcases hex with ⟨p, hp, hpt, hps⟩
  have hpstart : p ∈ (uploadStartState db tenant_id field_mappings).db.products := hp
  have hrep := upload_fold_reports_duplicate tenant_id products_data r s
    hmem hsku hne (uploadStartState db tenant_id field_mappings)
    ⟨p, hpstart, hpt, hps⟩
  have hEne : ¬ (products_data.foldl (uploadRowStep tenant_id)
      (uploadStartState db tenant_id field_mappings)).errors.isEmpty = true := by
    intro hE
    rw [List.isEmpty_iff] at hE
    rw [hE] at hrep
    simp at hrep
  simp only [upload_and_save_products]
  rw [if_neg hlim, if_neg hEne]
  exact ⟨hrep, rfl, rfl⟩

/-- Database state holding one committed product with SKU "A1" for tenant 1,
the target of the duplicate-upload scenario. -/
def dbC6 : DB :=
  { products := [
      { id := 1
        tenant_id := 1
        category_id := none
        sku_id := "A1"
        price := some 10
        manufacturer := some "Acme"
        supplier := none
        image_url := none }]
    additional_data := []
    field_mappings := []
    field_configurations := [] }

/-- A second upload row that repeats the committed SKU "A1". -/
def rowC6 : ProductData :=
  { index := 0
    sku_id := some "A1"
    category_id := none
    price := some 12
    manufacturer := some "Other"
    supplier := none
    image_url := none
    additional_data := []
    validation_status := "valid"
    validation_errors := [] }

/-- C6, witness: re-uploading SKU "A1" reports the duplicate, leaves the
stored product untouched and creates nothing. -/
theorem upload_duplicate_rolls_back_witness :
    ("Product with SKU A1 already exists")
      ∈ (upload_and_save_products dbC6 1 [] [rowC6]).errors ∧
    (upload_and_save_products dbC6 1 [] [rowC6]).db = dbC6 ∧
    (upload_and_save_products dbC6 1 [] [rowC6]).created_count = 0 := by
  have h := upload_duplicate_rolls_back dbC6 1 [] [rowC6] rowC6 "A1"
    (by decide) (List.mem_singleton.mpr rfl) (by decide) (by decide)
    ⟨{ id := 1, tenant_id := 1, category_id := none, sku_id := "A1",
       price := some 10, manufacturer := some "Acme", supplier := none,
       image_url := none }, by decide, rfl, rfl⟩
  exact h

/-- Python `str.strip()`: surrounding whitespace removed. -/
def pyStrip (s : String) : String :=
  String.mk
    (((s.toList.dropWhile Char.isWhitespace).reverse.dropWhile
      Char.isWhitespace).reverse)

/-- A raw spreadsheet cell as pandas hands it to the processor: missing
(NaN), text, an integer, a float (modelled as a rational; its Python string
form is abstracted by `toString`), or a boolean. -/
inductive CellValue where
  | nan
  | str (s : String)
  | int (n : Int)
  | float (q : Rat)
  | bool (b : Bool)
deriving DecidableEq

/-- A converted cell as `_convert_value` returns it: `None`, a number, a
boolean, or a string. -/
inductive CellOut where
  | none
  | num (q : Rat)
  | bool (b : Bool)
  | str (s : String)
deriving DecidableEq

/-- Python truthiness of a cell value. -/
def pyTruthyCell : CellValue → Bool
  | .nan => true
  | .str s => !(s == "")
  | .int n => !(n == 0)
  | .float q => !(q == 0)
  | .bool b => b

/-- Python `str(value)` on a cell (the float case abstracts CPython's float
formatting; no claim exercises it). -/
def pyStrCell : CellValue → String
  | .nan => "nan"
  | .str s => s
  | .int n => toString n
  | .float q => toString q
  | .bool b => if b then "True" else "False"

/-- Value of an unsigned decimal digit string. -/
def digitsToNat (ds : List Char) : Nat :=
  ds.foldl (fun a c => a * 10 + (c.toNat - 48)) 0

/-- Unsigned decimal numeral, optionally with a fractional part, as Python
`float()` accepts it (exponent and infinity forms are outside the cells the
claims quantify over). -/
def parseUnsigned (cs : List Char) : Option Rat :=
  let intPart := cs.takeWhile Char.isDigit
  let rest := cs.dropWhile Char.isDigit
  match rest with
  | [] => if intPart.isEmpty then Option.none else some (digitsToNat intPart)
  | c :: frac =>
      if c == '.' && frac.all Char.isDigit &&
          !(intPart.isEmpty && frac.isEmpty) then
        some ((digitsToNat intPart : Rat) +
          (digitsToNat frac : Rat) / ((10 : Rat) ^ frac.length))
      else Option.none

/-- Python `float(value)`: numbers and booleans convert, strings parse after
stripping whitespace, and failure is the ValueError the source catches.  The
NaN case stands behind the `pd.isna` guard and is never reached. -/
def pyFloat : CellValue → Except Unit Rat
  | .nan => .ok 0
  | .int n => .ok (n : Rat)
  | .float q => .ok q
  | .bool b => .ok (if b then 1 else 0)
  | .str s =>
      match
        (match (pyStrip s).toList with
          | '+' :: rest => parseUnsigned rest
          | '-' :: rest => (parseUnsigned rest).map Neg.neg
          | cs => parseUnsigned cs) with
      | some q => .ok q
      | Option.none => .error ()

/-- The `number` branch of `_convert_value`
(`return float(value) if value else None`, `ai_csv_utils.py` line 252): a
falsy value short-circuits to `None` before `float` can raise. -/
def convertNumber (value : CellValue) : Except Unit CellOut :=
  if pyTruthyCell value then
    match pyFloat value with
    | .ok q => .ok (.num q)
    | .error e => .error e
  else .ok .none

/-- Model of `AICSVProcessor._convert_value` (`ai_csv_utils.py` lines
245-263): the `pd.isna` guard, then the typed conversion inside `try`, and
the `except (ValueError, TypeError)` fallback to the trimmed string (or
`None` for a falsy value).  Only the number branch can raise over this value
domain, so the fallback is reachable only there. -/
def convert_value (value : CellValue) (field_type : String) : CellOut :=
  if value = .nan then .none
  else
    let tryResult : Except Unit CellOut :=
      if field_type == "number" then convertNumber value
      else if field_type == "boolean" then
        .ok (match value with
          | .str s => .bool (["true", "1", "yes", "y"].contains (lowStr s))
          | v => .bool (pyTruthyCell v))
      else if field_type == "date" then .ok (.str (pyStrCell value))
      else .ok (if pyTruthyCell value then .str (pyStrip (pyStrCell value))
        else .none)
    match tryResult with
    | .ok o => o
    | .error _ =>
        if pyTruthyCell value then .str (pyStrip (pyStrCell value)) else .none

deriving instance DecidableEq for Except

/-- C7, counterexample.  The empty string cannot be converted to a number
(Python `float("")` raises ValueError, modelled by the parser returning
nothing), yet `_convert_value` returns `None` for it under type "number" —
not the trimmed string form "" the claim requires — because the truthiness
short-circuit fires before `float` is attempted. -/
theorem convert_value_counterexample :
    pyFloat (.str "") = .error () ∧
    convert_value (.str "") "number" = CellOut.none ∧
    CellOut.none ≠ CellOut.str (pyStrip "") := by decide

/-- C7, amended.  Over the four declared types the conversion is a total
function (every exception of the `try` body is caught); a truthy value that
fails the number conversion falls back to its trimmed string form; a falsy
value under "number" or the default string branch yields `None` instead of
the trimmed string; the boolean and date branches never raise, returning a
boolean and the raw string form respectively. -/
theorem convert_value_amended (v : CellValue) (ft : String)
    (hft : ft = "number" ∨ ft = "boolean" ∨ ft = "date" ∨ ft = "string")
    (hnan : v ≠ .nan) :
    (pyTruthyCell v = true → ft = "number" → pyFloat v = .error () →
      convert_value v ft = .str (pyStrip (pyStrCell v))) ∧
    (pyTruthyCell v = false → (ft = "number" ∨ ft = "string") →
      convert_value v ft = .none) ∧
    (ft = "boolean" → ∃ b, convert_value v ft = .bool b) ∧
    (ft = "date" → convert_value v ft = .str (pyStrCell v)) := by
  refine ⟨?_, ?_, ?_, ?_⟩
  · intro hv hf herr
    subst hf
    simp [convert_value, hnan, convertNumber, hv, herr]
  · intro hv hf
    rcases hf with hf | hf <;> subst hf <;>
      simp [convert_value, hnan, convertNumber, hv]
  · intro hf
    subst hf
    rcases v with _ | s | n | q | b <;>
      simp [convert_value, convertNumber] <;> simp_all
  · intro hf
    subst hf
    simp [convert_value, hnan]

/-- C7, witness for the amended theorem at the unparsable truthy string
"abc" under type "number". -/
theorem convert_value_amended_witness :
    (pyTruthyCell (.str "abc") = true → "number" = "number" →
      pyFloat (.str "abc") = .error () →
      convert_value (.str "abc") "number" =
        .str (pyStrip (pyStrCell (.str "abc")))) ∧
    (pyTruthyCell (.str "abc") = false → ("number" = "number" ∨ "number" = "string") →
      convert_value (.str "abc") "number" = CellOut.none) ∧
    ("number" = "boolean" → ∃ b, convert_value (.str "abc") "number" = .bool b) ∧
    ("number" = "date" →
      convert_value (.str "abc") "number" = .str (pyStrCell (.str "abc"))) :=
  convert_value_amended (.str "abc") "number" (Or.inl rfl) (by decide)

/-- The invariant of the C8 claim: no two stored attribute-value rows agree
on both product id and field name. -/
def additionalUnique (db : DB) : Prop :=
  db.additional_data.Pairwise
    (fun a b => ¬(a.product_id = b.product_id ∧ a.field_name = b.field_name))

instance decidableAdditionalUnique (db : DB) :
    Decidable (additionalUnique db) :=
  List.instDecidablePairwise _

/-- Python `"s".split(sep)` for a one-character separator. -/
def splitChars (sep : Char) : List Char → List (List Char)
  | [] => [[]]
  | c :: cs =>
      let r := splitChars sep cs
      if c == sep then [] :: r
      else match r with
        | [] => [[c]]
        | h :: t => (c :: h) :: t

/-- Python `value.split(",")` returning strings. -/
def pySplit (sep : Char) (s : String) : List String :=
  (splitChars sep s.toList).map String.mk

/-- The `split_comma_values` helper of both query endpoints
(`product.py` lines 368-372 and 688-692): split on commas, strip each part,
drop the falsy ones. -/
def split_comma_values (value : String) : List String :=
  ((pySplit ',' value).map pyStrip).filter (fun v => !(v == ""))

/-- Python truthiness of an optional float parameter, as `any([...])`
evaluates it: 0.0 is falsy. -/
def ratTruthy : Option Rat → Bool
  | Option.none => false
  | some q => !(q == 0)

/-- Query parameters of the search endpoint (`product.py` lines 601-623).
`field_type` is accepted there but never read by the body. -/
structure SearchRequest where
  q : Option String
  page : Nat
  page_size : Nat
  skip : Option Nat
  limit : Option Nat
  category_id : Option Nat
  sku_id : Option String
  price : Option Rat
  price_min : Option Rat
  price_max : Option Rat
  manufacturer : Option String
  supplier : Option String
  brand : Option String
  field_name : Option String
  field_value : Option String
  field_type : Option String
deriving DecidableEq

/-- Query parameters of the list endpoint (`product.py` lines 277-301). -/
structure ListRequest where
  page : Nat
  page_size : Nat
  skip : Option Nat
  limit : Option Nat
  category_id : Option Nat
  search : Option String
  primary_only : Bool
  secondary_only : Bool
  field_type : Option String
  sku_id : Option String
  price : Option Rat
  price_min : Option Rat
  price_max : Option Rat
  manufacturer : Option String
  supplier : Option String
  brand : Option String
  field_name : Option String
  field_value : Option String
deriving DecidableEq

/-- The deprecated `skip`/`limit` compatibility shim shared by both
endpoints (`product.py` lines 326-341 and 639-654), returning the effective
(page, page_size). -/
def effectivePaging (page page_size : Nat) (skip lim : Option Nat) :
    Nat × Nat :=
  match skip, lim with
  | some sk, some l => (sk / l + 1, l)
  | some sk, Option.none => (sk / 100 + 1, 100)
  | Option.none, some l => (1, l)
  | Option.none, Option.none => (page, page_size)

/-- The searchable-field names of a tenant: the query both endpoints run
first (`product.py` lines 356-362 and 662-668). -/
def searchable_fields_of (db : DB) (tenant_id : Nat) : List String :=
  (db.field_configurations.filter
    (fun c => c.tenant_id == tenant_id && c.is_searchable)).map
    FieldConfiguration.field_name

/-- The product ids matched by an attribute-backed filter: for each value,
the ids of additional-data rows with the given field name whose value
matches, accumulated across the value list (`extend` in the source;
duplicates are harmless to `in_`). -/
def attrMatchedIds (db : DB) (fname : String) (vals : List String) :
    List Nat :=
  vals.flatMap (fun v =>
    (db.additional_data.filter
      (fun r => r.field_name == fname && ilikeCol v r.field_value)).map
      ProductAdditionalData.product_id)

/-- The sku_id filter block (`product.py` lines 705-710). -/
def sku_piece (searchable_fields : List String) (req : SearchRequest) :
    List (Product → Bool) :=
  match req.sku_id with
  | some s =>
      if !(s == "") && searchable_fields.contains "sku_id" then
        (let vals := split_comma_values s
         if !vals.isEmpty then
           [fun p => vals.any (fun v => ilikeSub v p.sku_id)]
         else [])
      else []
  | Option.none => []

/-- The manufacturer filter block (`product.py` lines 712-717). -/
def manufacturer_piece (searchable_fields : List String)
    (req : SearchRequest) : List (Product → Bool) :=
  match req.manufacturer with
  | some s =>
      if !(s == "") && searchable_fields.contains "manufacturer" then
        (let vals := split_comma_values s
         if !vals.isEmpty then
           [fun p => vals.any (fun v => ilikeCol v p.manufacturer)]
         else [])
      else []
  | Option.none => []

/-- The supplier filter block (`product.py` lines 719-724). -/
def supplier_piece (searchable_fields : List String) (req : SearchRequest) :
    List (Product → Bool) :=
  match req.supplier with
  | some s =>
      if !(s == "") && searchable_fields.contains "supplier" then
        (let vals := split_comma_values s
         if !vals.isEmpty then
           [fun p => vals.any (fun v => ilikeCol v p.supplier)]
         else [])
      else []
  | Option.none => []

/-- The exact-price filter (`product.py` lines 727-733; `validate_numeric`
is the identity on a float parameter). -/
def price_piece (searchable_fields : List String) (req : SearchRequest) :
    List (Product → Bool) :=
  match req.price with
  | some x =>
      if searchable_fields.contains "price" then
        [fun p => p.price == some x]
      else []
  | Option.none => []

/-- The minimum-price filter (`product.py` lines 735-737); SQL `>=` against
a NULL price never matches. -/
def price_min_piece (searchable_fields : List String) (req : SearchRequest) :
    List (Product → Bool) :=
  match req.price_min with
  | some x =>
      if searchable_fields.contains "price" then
        [fun p => match p.price with
          | some q => decide (x ≤ q)
          | Option.none => false]
      else []
  | Option.none => []

/-- The maximum-price filter (`product.py` lines 739-741). -/
def price_max_piece (searchable_fields : List String) (req : SearchRequest) :
    List (Product → Bool) :=
  match req.price_max with
  | some x =>
      if searchable_fields.contains "price" then
        [fun p => match p.price with
          | some q => decide (q ≤ x)
          | Option.none => false]
      else []
  | Option.none => []

/-- The brand filter block (`product.py` lines 744-759): the id list is
collected first and the condition is appended only when it is non-empty, so
a brand filter matching nothing contributes no AND-term. -/
def brand_piece (db : DB) (searchable_fields : List String)
    (req : SearchRequest) : List (Product → Bool) :=
  match req.brand with
  | some s =>
      if !(s == "") && searchable_fields.contains "brand" then
        (let vals := split_comma_values s
         if !vals.isEmpty then
           (let ids := attrMatchedIds db "brand" vals
            if !ids.isEmpty then [fun p => ids.contains p.id] else [])
         else [])
      else []
  | Option.none => []

/-- The dynamic-field filter block (`product.py` lines 762-777), with the
same silent-drop behavior as the brand block. -/
def dynamic_piece (db : DB) (searchable_fields : List String)
    (req : SearchRequest) : List (Product → Bool) :=
  match req.field_name, req.field_value with
  | some fn, some fv =>
      if !(fn == "") && !(fv == "") && searchable_fields.contains fn then
        (let vals := split_comma_values fv
         if !vals.isEmpty then
           (let ids := attrMatchedIds db fn vals
            if !ids.isEmpty then [fun p => ids.contains p.id] else [])
         else [])
      else []
  | _, _ => []

/-- All field-specific AND-terms, in source order. -/
def field_search_conditions (db : DB) (searchable_fields : List String)
    (req : SearchRequest) : List (Product → Bool) :=
  sku_piece searchable_fields req ++
  manufacturer_piece searchable_fields req ++
  supplier_piece searchable_fields req ++
  price_piece searchable_fields req ++
  price_min_piece searchable_fields req ++
  price_max_piece searchable_fields req ++
  brand_piece db searchable_fields req ++
  dynamic_piece db searchable_fields req

/-- Python `float(q)` on the general query string. -/
def pyFloatOfStr (s : String) : Option Rat :=
  match pyFloat (.str s) with
  | .ok q => some q
  | .error _ => Option.none

/-- Python `int(q)` on the general query string. -/
def pyIntOfStr (s : String) : Option Int :=
  let cs := (pyStrip s).toList
  match cs with
  | '+' :: rest =>
      if !rest.isEmpty && rest.all Char.isDigit then
        some (digitsToNat rest) else Option.none
  | '-' :: rest =>
      if !rest.isEmpty && rest.all Char.isDigit then
        some (-(digitsToNat rest : Int)) else Option.none
  | _ =>
      if !cs.isEmpty && cs.all Char.isDigit then
        some (digitsToNat cs) else Option.none

/-- The SQL string cast of a stored float price
(`Product.price.cast(String)`); its exact formatting is abstracted and no
claim exercises it. -/
def ratCastStr (q : Rat) : String := toString q

/-- The general-query price condition (`product.py` lines 788-795): equal
to the parsed number when `q` parses, else an ILIKE on the string cast. -/
def general_price_condition (q : String) : Product → Bool :=
  match pyFloatOfStr q with
  | some x => fun p => p.price == some x
  | Option.none => fun p =>
      match p.price with
      | some pq => ilikeSub q (ratCastStr pq)
      | Option.none => false

/-- The general-query category condition (`product.py` lines 802-808):
present only when `q` parses as an integer. -/
def general_category_condition (q : String) : List (Product → Bool) :=
  match pyIntOfStr q with
  | some n => [fun p => p.category_id.map (Int.ofNat) == some n]
  | Option.none => []

/-- The general-query OR-group members (`product.py` lines 780-820): one
condition per searchable fixed column (with numeric coercion attempted for
price and category), plus an id lookup over matching additional data. -/
def general_search_conditions (db : DB) (searchable_fields : List String)
    (q : String) : List (Product → Bool) :=
  (if searchable_fields.contains "sku_id" then
    [fun p => ilikeSub q p.sku_id] else []) ++
  (if searchable_fields.contains "price" then
    [general_price_condition q] else []) ++
  (if searchable_fields.contains "manufacturer" then
    [fun p => ilikeCol q p.manufacturer] else []) ++
  (if searchable_fields.contains "supplier" then
    [fun p => ilikeCol q p.supplier] else []) ++
  (if searchable_fields.contains "image_url" then
    [fun p => ilikeCol q p.image_url] else []) ++
  (if searchable_fields.contains "category_id" then
    general_category_condition q else []) ++
  (if !searchable_fields.isEmpty then
    (let ids := (db.additional_data.filter
        (fun r => searchable_fields.contains r.field_name &&
          ilikeCol q r.field_value)).map ProductAdditionalData.product_id
     if !ids.isEmpty then [fun p => ids.contains p.id] else [])
   else [])

/-- The `any([sku_id, manufacturer, supplier, brand, field_name, price,
price_min, price_max])` test both endpoints use (note: `field_value` is not
in the list, and a 0.0 price is falsy). -/
def fieldParamsTruthy (req : SearchRequest) : Bool :=
  pyTruthyStr req.sku_id || pyTruthyStr req.manufacturer ||
  pyTruthyStr req.supplier || pyTruthyStr req.brand ||
  pyTruthyStr req.field_name ||
  ratTruthy req.price || ratTruthy req.price_min || ratTruthy req.price_max

/-- The full AND-term list of the search endpoint: field-specific terms,
then the single general OR-group when a query string is given and no
field-specific parameter is truthy. -/
def search_conditions_of (db : DB) (searchable_fields : List String)
    (req : SearchRequest) : List (Product → Bool) :=
  field_search_conditions db searchable_fields req ++
  (match req.q with
   | some qs =>
      if !(qs == "") && !(fieldParamsTruthy req) then
        (let g := general_search_conditions db searchable_fields qs
         if !g.isEmpty then [fun p => g.any (fun c => c p)] else [])
      else []
   | Option.none => [])

/-- A query result page. -/
structure SearchResponse where
  products : List Product
  total_count : Nat
  message : Option String
  searchable_fields : List String
deriving DecidableEq

/-- Model of `search_products` (`product.py` lines 601-890): tenant scoping
and the category filter, the no-searchable-fields early return, AND-of-OR
condition building, the two diagnostic empty results, and pagination. -/
def search_products (db : DB) (tenant_id : Nat) (req : SearchRequest) :
    SearchResponse :=
  let paging := effectivePaging req.page req.page_size req.skip req.limit
  let actual_skip := (paging.1 - 1) * paging.2
  let actual_limit := paging.2
  let base0 := db.products.filter (fun p => p.tenant_id == tenant_id)
  let base := if pyTruthyNat req.category_id then
      base0.filter (fun p => p.category_id == req.category_id)
    else base0
  let searchable_fields := searchable_fields_of db tenant_id
  if searchable_fields.isEmpty &&
      !(pyTruthyStr req.q || fieldParamsTruthy req) then
    { products := [], total_count := 0,
      message := some "No searchable fields configured",
      searchable_fields := [] }
  else
    let conds := search_conditions_of db searchable_fields req
    if !conds.isEmpty then
      let matched := base.filter (fun p => conds.all (fun c => c p))
      { products := (matched.drop actual_skip).take actual_limit
        total_count := matched.length
        message := Option.none
        searchable_fields := searchable_fields }
    else
      if searchable_fields.isEmpty then
        { products := [], total_count := 0,
          message := some "No searchable fields configured",
          searchable_fields := [] }
      else if pyTruthyStr req.q || fieldParamsTruthy req then
        { products := [], total_count := 0,
          message := some "No products found matching the search criteria",
          searchable_fields := searchable_fields }
      else
        { products := (base.drop actual_skip).take actual_limit
          total_count := base.length
          message := Option.none
          searchable_fields := searchable_fields }

/-- The search-endpoint view of a list request: same filter vocabulary,
with `search` playing the role of `q`. -/
def reqOfList (lr : ListRequest) : SearchRequest :=
  { q := lr.search
    page := lr.page
    page_size := lr.page_size
    skip := lr.skip
    limit := lr.limit
    category_id := lr.category_id
    sku_id := lr.sku_id
    price := lr.price
    price_min := lr.price_min
    price_max := lr.price_max
    manufacturer := lr.manufacturer
    supplier := lr.supplier
    brand := lr.brand
    field_name := lr.field_name
    field_value := lr.field_value
    field_type := lr.field_type }

/-- The field-type filtering block of the list endpoint
(`product.py` lines 513-565): when a primary/secondary narrowing is
requested, keep products having a value in any so-flagged field; the "all"
type and an absent request leave the query untouched. -/
def fieldTypeApplied (db : DB) (tenant_id : Nat) (lr : ListRequest)
    (query : List Product) : List Product :=
  if pyTruthyStr lr.field_type || lr.primary_only || lr.secondary_only then
    let filter_type : String :=
      match lr.field_type with
      | some ft => if !(ft == "") then lowStr ft
          else if lr.primary_only then "primary"
          else if lr.secondary_only then "secondary" else "all"
      | Option.none =>
          if lr.primary_only then "primary"
          else if lr.secondary_only then "secondary" else "all"
    if filter_type == "primary" || filter_type == "secondary" then
      let field_names : List String := ((db.field_configurations.filter
        (fun c => c.tenant_id == tenant_id &&
          c.is_primary == (filter_type == "primary") &&
          c.is_secondary == (filter_type == "secondary"))).map
        FieldConfiguration.field_name)
      if !field_names.isEmpty then
        let field_conditions : List (Product → Bool) :=
          (if field_names.contains "sku_id" then
            [fun (_ : Product) => true] else []) ++
          (if field_names.contains "price" then
            [fun p => p.price.isSome] else []) ++
          (if field_names.contains "manufacturer" then
            [fun p => p.manufacturer.isSome] else []) ++
          (if field_names.contains "supplier" then
            [fun p => p.supplier.isSome] else []) ++
          (let ids := (db.additional_data.filter
              (fun r => field_names.contains r.field_name &&
                r.field_value.isSome)).map ProductAdditionalData.product_id
           if !ids.isEmpty then [fun p => ids.contains p.id] else [])
        if !field_conditions.isEmpty then
          query.filter (fun p => field_conditions.any (fun c => c p))
        else query
      else query
    else query
  else query

/-- Model of `list_products` (`product.py` lines 277-599): same condition
builder as the search endpoint, but no top early return; the
no-searchable-fields diagnostic fires only when a general `search` string
was supplied, the no-match diagnostic when any filter was, and a bare
listing falls through to the field-type block and pagination over the
tenant's full catalog. -/
def list_products (db : DB) (tenant_id : Nat) (lr : ListRequest) :
    SearchResponse :=
  let paging := effectivePaging lr.page lr.page_size lr.skip lr.limit
  let actual_skip := (paging.1 - 1) * paging.2
  let actual_limit := paging.2
  let base0 := db.products.filter (fun p => p.tenant_id == tenant_id)
  let base := if pyTruthyNat lr.category_id then
      base0.filter (fun p => p.category_id == lr.category_id)
    else base0
  let searchable_fields := searchable_fields_of db tenant_id
  let req := reqOfList lr
  let conds := search_conditions_of db searchable_fields req
  if !conds.isEmpty then
    let filtered := fieldTypeApplied db tenant_id lr
      (base.filter (fun p => conds.all (fun c => c p)))
    { products := (filtered.drop actual_skip).take actual_limit
      total_count := filtered.length
      message := Option.none
      searchable_fields := searchable_fields }
  else if pyTruthyStr lr.search && searchable_fields.isEmpty then
    { products := [], total_count := 0,
      message := some "No searchable fields configured",
      searchable_fields := [] }
  else if pyTruthyStr lr.search || fieldParamsTruthy req then
    { products := [], total_count := 0,
      message := some "No products found matching the search criteria",
      searchable_fields := searchable_fields }
  else
    let filtered := fieldTypeApplied db tenant_id lr base
    { products := (filtered.drop actual_skip).take actual_limit
      total_count := filtered.length
      message := Option.none
      searchable_fields := searchable_fields }

theorem contains_of_mem {α : Type} [BEq α] [LawfulBEq α] {l : List α} {a : α}
    (h : a ∈ l) : l.contains a = true :=
  List.contains_iff_exists_mem_beq.mpr ⟨a, h, by simp⟩

theorem bool_eq_of_iff {a b : Bool} (h : a = true ↔ b = true) : a = b := by
  cases a <;> cases b <;> simp_all

/-- Membership in the id list of an attribute-backed filter is existence of
a matching additional-data row. -/
theorem contains_attrMatchedIds (db : DB) (fname : String)
    (vals : List String) (pid : Nat) :
    (attrMatchedIds db fname vals).contains pid =
      db.additional_data.any (fun r => r.product_id == pid &&
        r.field_name == fname &&
        vals.any (fun v => ilikeCol v r.field_value)) := by
  apply bool_eq_of_iff
  rw [List.contains_iff_exists_mem_beq, List.any_eq_true]
  constructor
  · rintro ⟨i, hi, hbe⟩
    have hie : pid = i := by simpa using hbe
    subst hie
    rcases List.mem_flatMap.mp hi with ⟨v, hv, hmem⟩
    rcases List.mem_map.mp hmem with ⟨r, hr, hrid⟩
    rcases List.mem_filter.mp hr with ⟨hrl, hrp⟩
    rcases Bool.and_eq_true_iff.mp hrp with ⟨hrf, hrv⟩
    refine ⟨r, hrl, ?_⟩
    simp only [Bool.and_eq_true_iff, beq_iff_eq]
    exact ⟨⟨hrid.symm ▸ rfl, by simpa using hrf⟩,
      List.any_eq_true.mpr ⟨v, hv, hrv⟩⟩
  · rintro ⟨r, hrl, hrp⟩
    simp only [Bool.and_eq_true_iff, beq_iff_eq] at hrp
    rcases hrp with ⟨⟨hrid, hrf⟩, hany⟩
    rcases List.any_eq_true.mp hany with ⟨v, hv, hrv⟩
    refine ⟨r.product_id, ?_, by simp [hrid]⟩
    exact List.mem_flatMap.mpr ⟨v, hv, List.mem_map.mpr
      ⟨r, List.mem_filter.mpr ⟨hrl, by simp [hrf, hrv]⟩, rfl⟩⟩

/-- The claim's filter semantics, stated from the spec's words: each truthy
field-specific filter contributes one AND-term; within one field the
comma-separated values form an OR of case-insensitive substring matches
(over the attribute store for brand and the dynamic field); the numeric
price filters use equality and the two range comparisons.  The clauses are
grouped to mirror the order the query builder appends conditions. -/
def claimFilterPred (db : DB) (req : SearchRequest) (p : Product) : Bool :=
  (match req.sku_id with
   | some s => if s == "" then true else
      (split_comma_values s).any (fun v => ilikeSub v p.sku_id)
   | Option.none => true) &&
  (match req.manufacturer with
   | some s => if s == "" then true else
      (split_comma_values s).any (fun v => ilikeCol v p.manufacturer)
   | Option.none => true) &&
  (match req.supplier with
   | some s => if s == "" then true else
      (split_comma_values s).any (fun v => ilikeCol v p.supplier)
   | Option.none => true) &&
  (match req.price with
   | some x => p.price == some x
   | Option.none => true) &&
  (match req.price_min with
   | some x => (match p.price with
      | some q => decide (x ≤ q)
      | Option.none => false)
   | Option.none => true) &&
  (match req.price_max with
   | some x => (match p.price with
      | some q => decide (q ≤ x)
      | Option.none => false)
   | Option.none => true) &&
  (match req.brand with
   | some s => if s == "" then true else
      db.additional_data.any (fun r => r.product_id == p.id &&
        r.field_name == "brand" &&
        (split_comma_values s).any (fun v => ilikeCol v r.field_value))
   | Option.none => true) &&
  (match req.field_name, req.field_value with
   | some fn, some fv =>
      if fn == "" || fv == "" then true else
        db.additional_data.any (fun r => r.product_id == p.id &&
          r.field_name == fn &&
          (split_comma_values fv).any (fun v => ilikeCol v r.field_value))
   | _, _ => true)

/-- The tenant's products matching the claim's filter semantics. -/
def claimMatches (db : DB) (tenant_id : Nat) (req : SearchRequest) :
    List Product :=
  (db.products.filter (fun p => p.tenant_id == tenant_id)).filter
    (claimFilterPred db req)

theorem isEmpty_false_of_ne_nil {α : Type} {l : List α} (h : l ≠ []) :
    l.isEmpty = false := by
  cases hE : l.isEmpty
  · rfl
  · exact absurd (List.isEmpty_iff.mp hE) h

theorem decide_mem_eq_contains {α : Type} [BEq α] [LawfulBEq α]
    (l : List α) (a : α) : decide (a ∈ l) = l.contains a := by
  apply bool_eq_of_iff
  rw [decide_eq_true_eq, List.contains_iff_exists_mem_beq]
  constructor
  · intro h
    exact ⟨a, h, by simp⟩
  · rintro ⟨x, hx, hbe⟩
    have hax : a = x := by simpa using hbe
    rwa [hax]

theorem sku_piece_all (sf : List String) (req : SearchRequest) (p : Product)
    (h : pyTruthyStr req.sku_id = true →
      ("sku_id" ∈ sf ∧ split_comma_values (req.sku_id.getD "") ≠ [])) :
    (sku_piece sf req).all (fun c => c p) =
      (match req.sku_id with
       | some s => if s == "" then true else
          (split_comma_values s).any (fun v => ilikeSub v p.sku_id)
       | Option.none => true) := by
  rcases hs : req.sku_id with _ | s
  · simp [sku_piece, hs]
  · rw [hs] at h
    simp only [Option.getD_some] at h
    cases he : (s == "") with
    | true =>
        have he' : s = "" := by simpa using he
        subst he'
        simp [sku_piece, hs]
    | false =>
        obtain ⟨hmem, hvals⟩ := h (by simp [pyTruthyStr, he])
        simp [sku_piece, hs, he, hmem,
          isEmpty_false_of_ne_nil hvals]

theorem manufacturer_piece_all (sf : List String) (req : SearchRequest)
    (p : Product)
    (h : pyTruthyStr req.manufacturer = true →
      ("manufacturer" ∈ sf ∧
        split_comma_values (req.manufacturer.getD "") ≠ [])) :
    (manufacturer_piece sf req).all (fun c => c p) =
      (match req.manufacturer with
       | some s => if s == "" then true else
          (split_comma_values s).any (fun v => ilikeCol v p.manufacturer)
       | Option.none => true) := by
  rcases hs : req.manufacturer with _ | s
  · simp [manufacturer_piece, hs]
  · rw [hs] at h
    simp only [Option.getD_some] at h
    cases he : (s == "") with
    | true =>
        have he' : s = "" := by simpa using he
        subst he'
        simp [manufacturer_piece, hs]
    | false =>
        obtain ⟨hmem, hvals⟩ := h (by simp [pyTruthyStr, he])
        simp [manufacturer_piece, hs, he, hmem,
          isEmpty_false_of_ne_nil hvals]

theorem supplier_piece_all (sf : List String) (req : SearchRequest)
    (p : Product)
    (h : pyTruthyStr req.supplier = true →
      ("supplier" ∈ sf ∧ split_comma_values (req.supplier.getD "") ≠ [])) :
    (supplier_piece sf req).all (fun c => c p) =
      (match req.supplier with
       | some s => if s == "" then true else
          (split_comma_values s).any (fun v => ilikeCol v p.supplier)
       | Option.none => true) := by
  rcases hs : req.supplier with _ | s
  · simp [supplier_piece, hs]
  · rw [hs] at h
    simp only [Option.getD_some] at h
    cases he : (s == "") with
    | true =>
        have he' : s = "" := by simpa using he
        subst he'
        simp [supplier_piece, hs]
    | false =>
        obtain ⟨hmem, hvals⟩ := h (by simp [pyTruthyStr, he])
        simp [supplier_piece, hs, he, hmem,
          isEmpty_false_of_ne_nil hvals]

theorem price_piece_all (sf : List String) (req : SearchRequest)
    (p : Product)
    (h : req.price.isSome = true → "price" ∈ sf) :
    (price_piece sf req).all (fun c => c p) =
      (match req.price with
       | some x => p.price == some x
       | Option.none => true) := by
  rcases hs : req.price with _ | x
  · simp [price_piece, hs]
  · rw [hs] at h
    simp [price_piece, hs, h rfl]

theorem price_min_piece_all (sf : List String) (req : SearchRequest)
    (p : Product)
    (h : req.price_min.isSome = true → "price" ∈ sf) :
    (price_min_piece sf req).all (fun c => c p) =
      (match req.price_min with
       | some x => (match p.price with
          | some q => decide (x ≤ q)
          | Option.none => false)
       | Option.none => true) := by
  rcases hs : req.price_min with _ | x
  · simp [price_min_piece, hs]
  · rw [hs] at h
    simp [price_min_piece, hs, h rfl]

theorem price_max_piece_all (sf : List String) (req : SearchRequest)
    (p : Product)
    (h : req.price_max.isSome = true → "price" ∈ sf) :
    (price_max_piece sf req).all (fun c => c p) =
      (match req.price_max with
       | some x => (match p.price with
          | some q => decide (q ≤ x)
          | Option.none => false)
       | Option.none => true) := by
  rcases hs : req.price_max with _ | x
  · simp [price_max_piece, hs]
  · rw [hs] at h
    simp [price_max_piece, hs, h rfl]

theorem brand_piece_all (db : DB) (sf : List String) (req : SearchRequest)
    (p : Product)
    (h : pyTruthyStr req.brand = true →
      ("brand" ∈ sf ∧ split_comma_values (req.brand.getD "") ≠ [] ∧
        attrMatchedIds db "brand" (split_comma_values (req.brand.getD "")) ≠ [])) :
    (brand_piece db sf req).all (fun c => c p) =
      (match req.brand with
       | some s => if s == "" then true else
          db.additional_data.any (fun r => r.product_id == p.id &&
            r.field_name == "brand" &&
            (split_comma_values s).any (fun v => ilikeCol v r.field_value))
       | Option.none => true) := by
  rcases hs : req.brand with _ | s
  · simp [brand_piece, hs]
  · rw [hs] at h
    simp only [Option.getD_some] at h
    cases he : (s == "") with
    | true =>
        have he' : s = "" := by simpa using he
        subst he'
        simp [brand_piece, hs]
    | false =>
        obtain ⟨hmem, hvals, hids⟩ := h (by simp [pyTruthyStr, he])
        simp only [brand_piece, hs, he, Bool.not_false, Bool.true_and,
          isEmpty_false_of_ne_nil hvals, isEmpty_false_of_ne_nil hids]
        simp [hmem, isEmpty_false_of_ne_nil hvals,
          isEmpty_false_of_ne_nil hids]
        rw [decide_mem_eq_contains, contains_attrMatchedIds]

theorem dynamic_piece_all (db : DB) (sf : List String) (req : SearchRequest)
    (p : Product)
    (h : pyTruthyStr req.field_name = true →
      (pyTruthyStr req.field_value = true ∧
        (req.field_name.getD "") ∈ sf ∧
        split_comma_values (req.field_value.getD "") ≠ [] ∧
        attrMatchedIds db (req.field_name.getD "")
          (split_comma_values (req.field_value.getD "")) ≠ [])) :
    (dynamic_piece db sf req).all (fun c => c p) =
      (match req.field_name, req.field_value with
       | some fn, some fv =>
          if fn == "" || fv == "" then true else
            db.additional_data.any (fun r => r.product_id == p.id &&
              r.field_name == fn &&
              (split_comma_values fv).any (fun v => ilikeCol v r.field_value))
       | _, _ => true) := by
  rcases hn : req.field_name with _ | fn
  · rcases hv : req.field_value with _ | fv <;> simp [dynamic_piece, hn, hv]
  · rcases hv : req.field_value with _ | fv
    · simp [dynamic_piece, hn, hv]
    · rw [hn, hv] at h
      simp only [Option.getD_some] at h
      cases hne : (fn == "") with
      | true =>
          have hne' : fn = "" := by simpa using hne
          subst hne'
          simp [dynamic_piece, hn, hv]
      | false =>
          obtain ⟨hfv, hmem, hvals, hids⟩ := h (by simp [pyTruthyStr, hne])
          have hfve : (fv == "") = false := by
            simpa [pyTruthyStr] using hfv
          simp [dynamic_piece, hn, hv, hne, hfve, hmem,
            isEmpty_false_of_ne_nil hvals, isEmpty_false_of_ne_nil hids]
          rw [decide_mem_eq_contains, contains_attrMatchedIds]

theorem search_conditions_all_eq (db : DB) (t : Nat) (req : SearchRequest)
    (p : Product)
    (hq : req.q = Option.none)
    (hsku : pyTruthyStr req.sku_id = true →
      ("sku_id" ∈ searchable_fields_of db t ∧
        split_comma_values (req.sku_id.getD "") ≠ []))
    (hman : pyTruthyStr req.manufacturer = true →
      ("manufacturer" ∈ searchable_fields_of db t ∧
        split_comma_values (req.manufacturer.getD "") ≠ []))
    (hsup : pyTruthyStr req.supplier = true →
      ("supplier" ∈ searchable_fields_of db t ∧
        split_comma_values (req.supplier.getD "") ≠ []))
    (hpr : req.price.isSome = true → "price" ∈ searchable_fields_of db t)
    (hpmin : req.price_min.isSome = true →
      "price" ∈ searchable_fields_of db t)
    (hpmax : req.price_max.isSome = true →
      "price" ∈ searchable_fields_of db t)
    (hbr : pyTruthyStr req.brand = true →
      ("brand" ∈ searchable_fields_of db t ∧
        split_comma_values (req.brand.getD "") ≠ [] ∧
        attrMatchedIds db "brand"
          (split_comma_values (req.brand.getD "")) ≠ []))
    (hdy : pyTruthyStr req.field_name = true →
      (pyTruthyStr req.field_value = true ∧
        (req.field_name.getD "") ∈ searchable_fields_of db t ∧
        split_comma_values (req.field_value.getD "") ≠ [] ∧
        attrMatchedIds db (req.field_name.getD "")
          (split_comma_values (req.field_value.getD "")) ≠ [])) :
    (search_conditions_of db (searchable_fields_of db t) req).all
        (fun c => c p) = claimFilterPred db req p := by
  simp only [search_conditions_of, field_search_conditions, hq,
    List.all_append]
  rw [sku_piece_all _ _ _ hsku, manufacturer_piece_all _ _ _ hman,
    supplier_piece_all _ _ _ hsup, price_piece_all _ _ _ hpr,
    price_min_piece_all _ _ _ hpmin, price_max_piece_all _ _ _ hpmax,
    brand_piece_all _ _ _ _ hbr, dynamic_piece_all _ _ _ _ hdy]
  simp only [List.all_nil, Bool.and_true]
  rfl

theorem search_conditions_ne_nil (db : DB) (t : Nat) (req : SearchRequest)
    (hsku : pyTruthyStr req.sku_id = true →
      ("sku_id" ∈ searchable_fields_of db t ∧
        split_comma_values (req.sku_id.getD "") ≠ []))
    (hman : pyTruthyStr req.manufacturer = true →
      ("manufacturer" ∈ searchable_fields_of db t ∧
        split_comma_values (req.manufacturer.getD "") ≠ []))
    (hsup : pyTruthyStr req.supplier = true →
      ("supplier" ∈ searchable_fields_of db t ∧
        split_comma_values (req.supplier.getD "") ≠ []))
    (hpr : req.price.isSome = true → "price" ∈ searchable_fields_of db t)
    (hpmin : req.price_min.isSome = true →
      "price" ∈ searchable_fields_of db t)
    (hpmax : req.price_max.isSome = true →
      "price" ∈ searchable_fields_of db t)
    (hbr : pyTruthyStr req.brand = true →
      ("brand" ∈ searchable_fields_of db t ∧
        split_comma_values (req.brand.getD "") ≠ [] ∧
        attrMatchedIds db "brand"
          (split_comma_values (req.brand.getD "")) ≠ []))
    (hdy : pyTruthyStr req.field_name = true →
      (pyTruthyStr req.field_value = true ∧
        (req.field_name.getD "") ∈ searchable_fields_of db t ∧
        split_comma_values (req.field_value.getD "") ≠ [] ∧
        attrMatchedIds db (req.field_name.getD "")
          (split_comma_values (req.field_value.getD "")) ≠ []))
    (hf : fieldParamsTruthy req = true) :
    search_conditions_of db (searchable_fields_of db t) req ≠ [] := by
  intro hc
  simp only [search_conditions_of] at hc
  have hfe := (List.append_eq_nil.mp hc).1
  simp only [field_search_conditions] at hfe
  have h8 := (List.append_eq_nil.mp hfe).2
  have hr7 := (List.append_eq_nil.mp hfe).1
  have h7 := (List.append_eq_nil.mp hr7).2
  have hr6 := (List.append_eq_nil.mp hr7).1
  have h6 := (List.append_eq_nil.mp hr6).2
  have hr5 := (List.append_eq_nil.mp hr6).1
  have h5 := (List.append_eq_nil.mp hr5).2
  have hr4 := (List.append_eq_nil.mp hr5).1
  have h4 := (List.append_eq_nil.mp hr4).2
  have hr3 := (List.append_eq_nil.mp hr4).1
  have h3 := (List.append_eq_nil.mp hr3).2
  have hr2 := (List.append_eq_nil.mp hr3).1
  have h2 := (List.append_eq_nil.mp hr2).2
  have h1 := (List.append_eq_nil.mp hr2).1
  simp only [fieldParamsTruthy, Bool.or_eq_true] at hf
  rcases hf with ((((((hx | hx) | hx) | hx) | hx) | hx) | hx) | hx
  · obtain ⟨hmem, hvals⟩ := hsku hx
    rcases hs : req.sku_id with _ | s
    · rw [hs] at hx
      simp [pyTruthyStr] at hx
    · rw [hs] at hx hvals
      simp only [Option.getD_some] at hvals
      have he : (s == "") = false := by simpa [pyTruthyStr] using hx
      simp [sku_piece, hs, he, hmem, isEmpty_false_of_ne_nil hvals] at h1
  · obtain ⟨hmem, hvals⟩ := hman hx
    rcases hs : req.manufacturer with _ | s
    · rw [hs] at hx
      simp [pyTruthyStr] at hx
    · rw [hs] at hx hvals
      simp only [Option.getD_some] at hvals
      have he : (s == "") = false := by simpa [pyTruthyStr] using hx
      simp [manufacturer_piece, hs, he, hmem,
        isEmpty_false_of_ne_nil hvals] at h2
  · obtain ⟨hmem, hvals⟩ := hsup hx
    rcases hs : req.supplier with _ | s
    · rw [hs] at hx
      simp [pyTruthyStr] at hx
    · rw [hs] at hx hvals
      simp only [Option.getD_some] at hvals
      have he : (s == "") = false := by simpa [pyTruthyStr] using hx
      simp [supplier_piece, hs, he, hmem,
        isEmpty_false_of_ne_nil hvals] at h3
  · obtain ⟨hmem, hvals, hids⟩ := hbr hx
    rcases hs : req.brand with _ | s
    · rw [hs] at hx
      simp [pyTruthyStr] at hx
    · rw [hs] at hx hvals hids
      simp only [Option.getD_some] at hvals hids
      have he : (s == "") = false := by simpa [pyTruthyStr] using hx
      simp [brand_piece, hs, he, hmem, isEmpty_false_of_ne_nil hvals,
        isEmpty_false_of_ne_nil hids] at h7
  · obtain ⟨hfv, hmem, hvals, hids⟩ := hdy hx
    rcases hs : req.field_name with _ | fn
    · rw [hs] at hx
      simp [pyTruthyStr] at hx
    · rcases hv : req.field_value with _ | fv
      · rw [hv] at hfv
        simp [pyTruthyStr] at hfv
      · rw [hs] at hx hmem
        rw [hv] at hfv hvals
        rw [hs, hv] at hids
        simp only [Option.getD_some] at hmem hvals hids
        have he : (fn == "") = false := by simpa [pyTruthyStr] using hx
        have he2 : (fv == "") = false := by simpa [pyTruthyStr] using hfv
        simp [dynamic_piece, hs, hv, he, he2, hmem,
          isEmpty_false_of_ne_nil hvals, isEmpty_false_of_ne_nil hids] at h8
  · rcases hs : req.price with _ | x
    · rw [hs] at hx
      simp [ratTruthy] at hx
    · have hmem := hpr (by rw [hs]; rfl)
      simp [price_piece, hs, hmem] at h4
  · rcases hs : req.price_min with _ | x
    · rw [hs] at hx
      simp [ratTruthy] at hx
    · have hmem := hpmin (by rw [hs]; rfl)
      simp [price_min_piece, hs, hmem] at h5
  · rcases hs : req.price_max with _ | x
    · rw [hs] at hx
      simp [ratTruthy] at hx
    · have hmem := hpmax (by rw [hs]; rfl)
      simp [price_max_piece, hs, hmem] at h6

/-- C1, amended.  For a search request with no general query, no category
filter, and a tenant with at least one searchable field, where each supplied
field-specific filter names a searchable field and splits into at least one
value, and each supplied attribute-backed filter (brand, field_name with
field_value) matches at least one attribute row, the returned page is
exactly the claim's semantics: filters combine with AND across fields, the
comma-separated values of one field combine with OR over case-insensitive
substring matches, and the price filters compare with equality, at-least
and at-most.  (Without the attribute-match proviso the code silently drops
an attribute filter that matches nothing — see the counterexample.) -/
theorem search_products_and_or_amended (db : DB) (t : Nat)
    (req : SearchRequest)
    (hq : req.q = Option.none)
    (hcat : req.category_id = Option.none)
    (hsf : searchable_fields_of db t ≠ [])
    (hsku : pyTruthyStr req.sku_id = true →
      ("sku_id" ∈ searchable_fields_of db t ∧
        split_comma_values (req.sku_id.getD "") ≠ []))
    (hman : pyTruthyStr req.manufacturer = true →
      ("manufacturer" ∈ searchable_fields_of db t ∧
        split_comma_values (req.manufacturer.getD "") ≠ []))
    (hsup : pyTruthyStr req.supplier = true →
      ("supplier" ∈ searchable_fields_of db t ∧
        split_comma_values (req.supplier.getD "") ≠ []))
    (hpr : req.price.isSome = true → "price" ∈ searchable_fields_of db t)
    (hpmin : req.price_min.isSome = true →
      "price" ∈ searchable_fields_of db t)
    (hpmax : req.price_max.isSome = true →
      "price" ∈ searchable_fields_of db t)
    (hbr : pyTruthyStr req.brand = true →
      ("brand" ∈ searchable_fields_of db t ∧
        split_comma_values (req.brand.getD "") ≠ [] ∧
        attrMatchedIds db "brand"
          (split_comma_values (req.brand.getD "")) ≠ []))
    (hdy : pyTruthyStr req.field_name = true →
      (pyTruthyStr req.field_value = true ∧
        (req.field_name.getD "") ∈ searchable_fields_of db t ∧
        split_comma_values (req.field_value.getD "") ≠ [] ∧
        attrMatchedIds db (req.field_name.getD "")
          (split_comma_values (req.field_value.getD "")) ≠ [])) :
    search_products db t req =
      { products := ((claimMatches db t req).drop
          (((effectivePaging req.page req.page_size req.skip req.limit).1 - 1) *
            (effectivePaging req.page req.page_size req.skip req.limit).2)).take
          (effectivePaging req.page req.page_size req.skip req.limit).2
        total_count := (claimMatches db t req).length
        message := Option.none
        searchable_fields := searchable_fields_of db t } := by
  have hall := fun p => search_conditions_all_eq db t req p hq hsku hman hsup
    hpr hpmin hpmax hbr hdy
  have hsfE : (searchable_fields_of db t).isEmpty = false :=
    isEmpty_false_of_ne_nil hsf
  simp only [search_products, hsfE, Bool.false_and, Bool.false_eq_true,
    if_false, hcat, pyTruthyNat]
  by_cases hc : search_conditions_of db (searchable_fields_of db t) req = []
  · have hfp : fieldParamsTruthy req = false := by
      cases hF : fieldParamsTruthy req
      · rfl
      · exact absurd hc (search_conditions_ne_nil db t req hsku hman hsup
          hpr hpmin hpmax hbr hdy hF)
    have hpredT : ∀ p, claimFilterPred db req p = true := by
      intro p
      rw [← hall p, hc]
      rfl
    have hcm : claimMatches db t req =
        db.products.filter (fun p => p.tenant_id == t) := by
      rw [claimMatches]
      exact List.filter_eq_self.mpr (fun p _ => hpredT p)
    rw [hc, hcm]
    simp [hq, hfp, hsfE, pyTruthyStr]
  · have hcE := isEmpty_false_of_ne_nil hc
    have hcm : (db.products.filter (fun p => p.tenant_id == t)).filter
        (fun p => (search_conditions_of db (searchable_fields_of db t)
          req).all (fun c => c p)) = claimMatches db t req := by
      rw [claimMatches]
      exact List.filter_congr (fun p _ => hall p)
    simp only [hcE, Bool.not_false, if_true, hcm]

/-- A configuration row marking `f` searchable for tenant 1. -/
def searchableCfg (f : String) : FieldConfiguration :=
  { tenant_id := 1
    field_name := f
    field_label := f
    field_type := "string"
    is_searchable := true
    is_editable := true
    is_primary := false
    is_secondary := false
    display_order := 0
    description := "" }

/-- Database for the C1 counterexample: one product by Apple with no brand
attribute; manufacturer and brand are both searchable. -/
def dbC1 : DB :=
  { products := [
      { id := 1
        tenant_id := 1
        category_id := Option.none
        sku_id := "S1"
        price := Option.none
        manufacturer := some "Apple"
        supplier := Option.none
        image_url := Option.none }]
    additional_data := []
    field_mappings := []
    field_configurations := [searchableCfg "manufacturer", searchableCfg "brand"] }

/-- The C1 counterexample request: manufacturer=Apple AND brand=Nike. -/
def reqC1 : SearchRequest :=
  { q := Option.none
    page := 1
    page_size := 100
    skip := Option.none
    limit := Option.none
    category_id := Option.none
    sku_id := Option.none
    price := Option.none
    price_min := Option.none
    price_max := Option.none
    manufacturer := some "Apple"
    supplier := Option.none
    brand := some "Nike"
    field_name := Option.none
    field_value := Option.none
    field_type := Option.none }

/-- C1, counterexample.  Both filters name searchable fields, but no product
has a brand attribute matching "Nike", so the claimed intersection is empty;
the code drops the brand AND-term because its id list is empty and returns
the Apple product anyway. -/
theorem search_and_or_counterexample :
    (search_products dbC1 1 reqC1).total_count = 1 ∧
    (search_products dbC1 1 reqC1).products ≠ [] ∧
    claimMatches dbC1 1 reqC1 = [] := by decide

/-- Database for the C1 witness: one Apple/Acme product, with manufacturer
and supplier searchable. -/
def dbC1W : DB :=
  { products := [
      { id := 1
        tenant_id := 1
        category_id := Option.none
        sku_id := "S1"
        price := Option.none
        manufacturer := some "Apple"
        supplier := some "Acme"
        image_url := Option.none }]
    additional_data := []
    field_mappings := []
    field_configurations :=
      [searchableCfg "manufacturer", searchableCfg "supplier"] }

/-- The C1 witness request: manufacturer=Apple AND supplier=Acme. -/
def reqC1W : SearchRequest :=
  { q := Option.none
    page := 1
    page_size := 100
    skip := Option.none
    limit := Option.none
    category_id := Option.none
    sku_id := Option.none
    price := Option.none
    price_min := Option.none
    price_max := Option.none
    manufacturer := some "Apple"
    supplier := some "Acme"
    brand := Option.none
    field_name := Option.none
    field_value := Option.none
    field_type := Option.none }

/-- C1, witness for the amended theorem at a concrete two-filter request. -/
theorem search_products_and_or_amended_witness :
    search_products dbC1W 1 reqC1W =
      { products := ((claimMatches dbC1W 1 reqC1W).drop
          (((effectivePaging reqC1W.page reqC1W.page_size reqC1W.skip
              reqC1W.limit).1 - 1) *
            (effectivePaging reqC1W.page reqC1W.page_size reqC1W.skip
              reqC1W.limit).2)).take
          (effectivePaging reqC1W.page reqC1W.page_size reqC1W.skip
            reqC1W.limit).2
        total_count := (claimMatches dbC1W 1 reqC1W).length
        message := Option.none
        searchable_fields := searchable_fields_of dbC1W 1 } :=
  search_products_and_or_amended dbC1W 1 reqC1W rfl rfl (by decide)
    (by decide) (by decide) (by decide) (by decide) (by decide) (by decide)
    (by decide) (by decide)

/-- C9, confirmed.  For a tenant with no searchable field configuration, a
search request with no general query and no field-specific filter hits the
early guard and returns an empty page carrying the diagnostic message
instead of the unfiltered catalog. -/
theorem search_no_searchable_fields_guard (db : DB) (t : Nat)
    (page page_size : Nat)
    (hs : searchable_fields_of db t = []) :
    search_products db t
      { q := Option.none, page := page, page_size := page_size,
        skip := Option.none, limit := Option.none,
        category_id := Option.none, sku_id := Option.none,
        price := Option.none, price_min := Option.none,
        price_max := Option.none, manufacturer := Option.none,
        supplier := Option.none, brand := Option.none,
        field_name := Option.none, field_value := Option.none,
        field_type := Option.none } =
      { products := [], total_count := 0,
        message := some "No searchable fields configured",
        searchable_fields := [] } := by
  simp [search_products, hs, fieldParamsTruthy, pyTruthyStr, ratTruthy]

/-- C9, witness at a database holding a product but no configuration. -/
theorem search_no_searchable_fields_guard_witness :
    search_products dbC3 1
      { q := Option.none, page := 1, page_size := 100,
        skip := Option.none, limit := Option.none,
        category_id := Option.none, sku_id := Option.none,
        price := Option.none, price_min := Option.none,
        price_max := Option.none, manufacturer := Option.none,
        supplier := Option.none, brand := Option.none,
        field_name := Option.none, field_value := Option.none,
        field_type := Option.none } =
      { products := [], total_count := 0,
        message := some "No searchable fields configured",
        searchable_fields := [] } :=
  search_no_searchable_fields_guard dbC3 1 1 100 rfl

/-- C10, confirmed.  For a tenant with no searchable field configuration, a
bare list request (no search text, no field filter, no category, no field
type) bypasses every empty-page guard and returns the tenant's full
paginated catalog with no diagnostic message. -/
theorem list_bare_returns_catalog (db : DB) (t : Nat) (page page_size : Nat)
    (hs : searchable_fields_of db t = []) :
    (list_products db t
      { page := page, page_size := page_size, skip := Option.none,
        limit := Option.none, category_id := Option.none,
        search := Option.none, primary_only := false,
        secondary_only := false, field_type := Option.none,
        sku_id := Option.none, price := Option.none,
        price_min := Option.none, price_max := Option.none,
        manufacturer := Option.none, supplier := Option.none,
        brand := Option.none, field_name := Option.none,
        field_value := Option.none }).products =
      ((db.products.filter (fun p => p.tenant_id == t)).drop
        ((page - 1) * page_size)).take page_size ∧
    (list_products db t
      { page := page, page_size := page_size, skip := Option.none,
        limit := Option.none, category_id := Option.none,
        search := Option.none, primary_only := false,
        secondary_only := false, field_type := Option.none,
        sku_id := Option.none, price := Option.none,
        price_min := Option.none, price_max := Option.none,
        manufacturer := Option.none, supplier := Option.none,
        brand := Option.none, field_name := Option.none,
        field_value := Option.none }).total_count =
      (db.products.filter (fun p => p.tenant_id == t)).length ∧
    (list_products db t
      { page := page, page_size := page_size, skip := Option.none,
        limit := Option.none, category_id := Option.none,
        search := Option.none, primary_only := false,
        secondary_only := false, field_type := Option.none,
        sku_id := Option.none, price := Option.none,
        price_min := Option.none, price_max := Option.none,
        manufacturer := Option.none, supplier := Option.none,
        brand := Option.none, field_name := Option.none,
        field_value := Option.none }).message = Option.none := by
  exact ⟨rfl, rfl, rfl⟩

/-- C10, witness: the tenant of `dbC3` has a product and no configuration,
and the bare listing returns it. -/
theorem list_bare_returns_catalog_witness :
    (list_products dbC3 1
      { page := 1, page_size := 100, skip := Option.none,
        limit := Option.none, category_id := Option.none,
        search := Option.none, primary_only := false,
        secondary_only := false, field_type := Option.none,
        sku_id := Option.none, price := Option.none,
        price_min := Option.none, price_max := Option.none,
        manufacturer := Option.none, supplier := Option.none,
        brand := Option.none, field_name := Option.none,
        field_value := Option.none }).products =
      ((dbC3.products.filter (fun p => p.tenant_id == 1)).drop
        ((1 - 1) * 100)).take 100 ∧
    (list_products dbC3 1
      { page := 1, page_size := 100, skip := Option.none,
        limit := Option.none, category_id := Option.none,
        search := Option.none, primary_only := false,
        secondary_only := false, field_type := Option.none,
        sku_id := Option.none, price := Option.none,
        price_min := Option.none, price_max := Option.none,
        manufacturer := Option.none, supplier := Option.none,
        brand := Option.none, field_name := Option.none,
        field_value := Option.none }).total_count =
      (dbC3.products.filter (fun p => p.tenant_id == 1)).length ∧
    (list_products dbC3 1
      { page := 1, page_size := 100, skip := Option.none,
        limit := Option.none, category_id := Option.none,
        search := Option.none, primary_only := false,
        secondary_only := false, field_type := Option.none,
        sku_id := Option.none, price := Option.none,
        price_min := Option.none, price_max := Option.none,
        manufacturer := Option.none, supplier := Option.none,
        brand := Option.none, field_name := Option.none,
        field_value := Option.none }).message = Option.none :=
  list_bare_returns_catalog dbC3 1 1 100 rfl

end PIM
